import Mathlib

/-!
Verification of the spherical-geometry core of the `geo` repository.

The Go source (distance.go, geojson.go) is shallowly embedded: `float64`
values become real numbers, Go's `math` functions become their exact real
counterparts (`math.Atan2` is modeled by the complex argument, which matches
Go's branch conventions on non-zero inputs and returns 0 at the origin),
fallible functions return `Except String`, and Go slices are modeled as lists
(plus an explicit backing-array model where aliasing matters).
-/

open Real

noncomputable section

namespace Geo

/-! ### distance.go: constants and primitives -/

/-- Earth radius in kilometers (distance.go `EarthRadiusKm`). -/
def EarthRadiusKm : ℝ := 6371

/-- distance.go `toRadians`: degrees to radians. -/
def toRadians (deg : ℝ) : ℝ := deg * π / 180

/-- distance.go `toDegrees`: radians to degrees. -/
def toDegrees (rad : ℝ) : ℝ := rad * 180 / π

/-- Truncation toward zero, as Go's float-to-int conversion / `math.Trunc`. -/
def goTrunc (x : ℝ) : ℝ := if 0 ≤ x then (⌊x⌋ : ℝ) else (⌈x⌉ : ℝ)

/-- Go's `math.Mod x y`: remainder with the sign of x (`x - y*trunc(x/y)`). -/
def goMod (x y : ℝ) : ℝ := x - y * goTrunc (x / y)

/-- distance.go `normalizeLongitude`: keeps longitude in [-180, 180). -/
def normalizeLongitude (lon : ℝ) : ℝ :=
  let l := goMod (lon + 180) 360
  (if l < 0 then l + 360 else l) - 180

/-- Go's `math.Atan2 y x`, modeled by the complex argument of x + y*i.
Both have range (-π, π], agree on every non-zero input with non-signed
zeros, and return 0 at (0, 0). -/
def atan2 (y x : ℝ) : ℝ := Complex.arg ⟨x, y⟩

/-- distance.go `initialBearingRad`. -/
def initialBearingRad (lat1 lon1 lat2 lon2 : ℝ) : ℝ :=
  let φ1 := toRadians lat1
  let φ2 := toRadians lat2
  let Dlam := toRadians (lon2 - lon1)
  let y := Real.sin Dlam * Real.cos φ2
  let x := Real.cos φ1 * Real.sin φ2 - Real.sin φ1 * Real.cos φ2 * Real.cos Dlam
  atan2 y x

/-- distance.go `angularDistanceRad`: central angle between two points. -/
def angularDistanceRad (lat1 lon1 lat2 lon2 : ℝ) : ℝ :=
  let φ1 := toRadians lat1
  let φ2 := toRadians lat2
  let Δφ := φ2 - φ1
  let Dlam := toRadians (lon2 - lon1)
  let a := Real.sin (Δφ/2) * Real.sin (Δφ/2) +
    Real.cos φ1 * Real.cos φ2 * Real.sin (Dlam/2) * Real.sin (Dlam/2)
  2 * atan2 (Real.sqrt a) (Real.sqrt (1 - a))

/-- distance.go `GreatCircleDistance`: haversine distance in kilometers. -/
def GreatCircleDistance (lat1 lon1 lat2 lon2 : ℝ) : ℝ :=
  let φ1 := toRadians lat1
  let φ2 := toRadians lat2
  let Δφ := toRadians (lat2 - lat1)
  let Dlam := toRadians (lon2 - lon1)
  let a := Real.sin (Δφ/2) * Real.sin (Δφ/2) +
    Real.cos φ1 * Real.cos φ2 * Real.sin (Dlam/2) * Real.sin (Dlam/2)
  let c := 2 * atan2 (Real.sqrt a) (Real.sqrt (1 - a))
  EarthRadiusKm * c

/-- distance.go `GreatCircleIntermediatePoint`: point at the given fraction
along the great-circle path; returns (lat, lon) in degrees. -/
def GreatCircleIntermediatePoint (lat1 lon1 lat2 lon2 fraction : ℝ) : ℝ × ℝ :=
  let φ1 := toRadians lat1
  let lam1 := toRadians lon1
  let φ2 := toRadians lat2
  let lam2 := toRadians lon2
  let Δφ := φ2 - φ1
  let Dlam := lam2 - lam1
  let a := Real.sin (Δφ/2) * Real.sin (Δφ/2) +
    Real.cos φ1 * Real.cos φ2 * Real.sin (Dlam/2) * Real.sin (Dlam/2)
  let δ := 2 * atan2 (Real.sqrt a) (Real.sqrt (1 - a))
  if δ = 0 then (lat1, normalizeLongitude lon1)
  else
    let aCoef := Real.sin ((1 - fraction) * δ) / Real.sin δ
    let bCoef := Real.sin (fraction * δ) / Real.sin δ
    let x := aCoef * Real.cos φ1 * Real.cos lam1 + bCoef * Real.cos φ2 * Real.cos lam2
    let y := aCoef * Real.cos φ1 * Real.sin lam1 + bCoef * Real.cos φ2 * Real.sin lam2
    let z := aCoef * Real.sin φ1 + bCoef * Real.sin φ2
    let φi := atan2 z (Real.sqrt (x*x + y*y))
    let lami := atan2 y x
    (toDegrees φi, normalizeLongitude (toDegrees lami))

/-- distance.go `GreatCircleProject`: unclamped projection onto the infinite
great circle; returns (projLat, projLon, crossTrackKm, alongTrackKm). -/
def GreatCircleProject (lat1 lon1 lat2 lon2 latP lonP : ℝ) : ℝ × ℝ × ℝ × ℝ :=
  let totalAngle := angularDistanceRad lat1 lon1 lat2 lon2
  if totalAngle = 0 then
    (lat1, normalizeLongitude lon1, GreatCircleDistance lat1 lon1 latP lonP, 0)
  else
    let δ13 := angularDistanceRad lat1 lon1 latP lonP
    let θ13 := initialBearingRad lat1 lon1 latP lonP
    let θ12 := initialBearingRad lat1 lon1 lat2 lon2
    let δxt := Real.arcsin (Real.sin δ13 * Real.sin (θ13 - θ12))
    let crossTrackKm := δxt * EarthRadiusKm
    let δat := atan2 (Real.sin δ13 * Real.cos (θ13 - θ12)) (Real.cos δ13)
    let alongTrackKm := δat * EarthRadiusKm
    let fraction := δat / totalAngle
    let p := GreatCircleIntermediatePoint lat1 lon1 lat2 lon2 fraction
    (p.1, p.2, crossTrackKm, alongTrackKm)

/-- distance.go `RhumbLineDistance`: loxodrome distance in kilometers.
Go's `math.Log` is modeled by `Real.log` (junk values at non-positive
arguments in both models land in the `q = cos φ1` fallback branch for the
inputs appearing in the theorems below). -/
def RhumbLineDistance (lat1 lon1 lat2 lon2 : ℝ) : ℝ :=
  let φ1 := toRadians lat1
  let φ2 := toRadians lat2
  let Δφ := φ2 - φ1
  let Dlam0 := toRadians (lon2 - lon1)
  let Dlam := if |Dlam0| > π then (if Dlam0 > 0 then -(2*π - Dlam0) else 2*π + Dlam0) else Dlam0
  let Δψ := Real.log (Real.tan (φ2/2 + π/4) / Real.tan (φ1/2 + π/4))
  let q := if |Δψ| > 1e-12 then Δφ / Δψ else Real.cos φ1
  let δ := Real.sqrt (Δφ*Δφ + q*q*Dlam*Dlam)
  δ * EarthRadiusKm

/-! ### geojson.go: data model -/

/-- geojson.go `Position`: [longitude, latitude]; `.1` is `p[0]`, `.2` is `p[1]`. -/
abbrev Position : Type := ℝ × ℝ

/-- geojson.go `Point`. -/
structure Point where
  type : String
  coordinates : Position

/-- geojson.go `LineString`. -/
structure LineString where
  type : String
  coordinates : List Position

/-- geojson.go `Polygon`. -/
structure Polygon where
  type : String
  coordinates : List (List Position)

/-- geojson.go `MultiLineString`. -/
structure MultiLineString where
  type : String
  coordinates : List (List Position)

/-- geojson.go `MultiPolygon`. -/
structure MultiPolygon where
  type : String
  coordinates : List (List (List Position))

/-- geojson.go `NewPoint`. -/
def NewPoint (lon lat : ℝ) : Point := ⟨"Point", (lon, lat)⟩

/-- geojson.go `NewLineString`. -/
def NewLineString (coords : List Position) : LineString := ⟨"LineString", coords⟩

/-- geojson.go `NewPolygon`. -/
def NewPolygon (coords : List (List Position)) : Polygon := ⟨"Polygon", coords⟩

/-- geojson.go `NewMultiLineString`. -/
def NewMultiLineString (coords : List (List Position)) : MultiLineString :=
  ⟨"MultiLineString", coords⟩

/-- geojson.go `positionLatLon`: returns (lat, lon). -/
def positionLatLon (p : Position) : ℝ × ℝ := (p.2, p.1)

/-- geojson.go `pointFromLatLon`. -/
def pointFromLatLon (lat lon : ℝ) : Point := NewPoint lon lat

/-- The closed set of geometry variants dispatched on by the geojson.go
`interface{}` type switches. A `Feature` wraps one geometry (its opaque
properties are not consulted by any algorithm here); a `FeatureCollection`
is processed by dispatching on each member feature, which immediately
dispatches on its geometry, so it carries the list of member geometries. -/
inductive GeoObj where
  | point (p : Point)
  | lineString (l : LineString)
  | polygon (p : Polygon)
  | multiLineString (m : MultiLineString)
  | multiPolygon (m : MultiPolygon)
  | feature (geometry : GeoObj)
  | featureCollection (features : List GeoObj)

/-! ### geojson.go: line algorithms -/

/-- Summation loop of geojson.go `lineStringLengthKm`. -/
def segmentsLengthKm : List Position → ℝ
  | a :: b :: rest =>
    GreatCircleDistance (positionLatLon a).1 (positionLatLon a).2
      (positionLatLon b).1 (positionLatLon b).2 + segmentsLengthKm (b :: rest)
  | _ => 0

/-- geojson.go `lineStringLengthKm`. -/
def lineStringLengthKm (line : LineString) : Except String ℝ :=
  if line.coordinates.length < 2 then .error "linestring must have at least 2 coordinates"
  else .ok (segmentsLengthKm line.coordinates)

/-- Walking loop of geojson.go `LineStringPointAtDistance`: `prev` is the
current segment start; when the list is exhausted `prev` is the final
coordinate and the loop falls through to returning it. -/
def walkToDistance (remaining : ℝ) : Position → List Position → Point
  | prev, [] => pointFromLatLon (positionLatLon prev).1 (positionLatLon prev).2
  | prev, next :: rest =>
    let lat1 := (positionLatLon prev).1
    let lon1 := (positionLatLon prev).2
    let lat2 := (positionLatLon next).1
    let lon2 := (positionLatLon next).2
    let seg := GreatCircleDistance lat1 lon1 lat2 lon2
    if remaining ≤ seg then
      let f := remaining / seg
      let p := GreatCircleIntermediatePoint lat1 lon1 lat2 lon2 f
      pointFromLatLon p.1 p.2
    else walkToDistance (remaining - seg) next rest

/-- geojson.go `LineStringPointAtDistance`. -/
def LineStringPointAtDistance (line : LineString) (distanceKm : ℝ) : Except String Point :=
  match line.coordinates with
  | c0 :: c1 :: rest =>
    if distanceKm ≤ 0 then
      .ok (pointFromLatLon (positionLatLon c0).1 (positionLatLon c0).2)
    else .ok (walkToDistance distanceKm c0 (c1 :: rest))
  | _ => .error "linestring must have at least 2 coordinates"

/-! ### geojson.go: great-circle route generation -/

/-- Antimeridian scan loop of geojson.go `GreatCircleGeoJSON`: starts a new
segment whenever the longitude jump between adjacent generated points
exceeds 180 degrees. -/
def splitScan (lines : List (List Position)) (current : List Position) (prev : Position) :
    List Position → List (List Position)
  | [] => lines ++ [current]
  | curr :: rest =>
    if |curr.1 - prev.1| > 180 then splitScan (lines ++ [current]) [curr] curr rest
    else splitScan lines (current ++ [curr]) curr rest

/-- geojson.go `GreatCircleGeoJSON` antimeridian splitting of the generated
coordinates (`current := []Position{coords[0]}` then the scan loop). -/
def splitAntimeridian : List Position → List (List Position)
  | [] => []
  | c0 :: rest => splitScan [] [c0] c0 rest

/-- The coordinate-generation loop of geojson.go `GreatCircleGeoJSON`
(`coords[i] = Position{lon, lat}` of the intermediate point at fraction
`i/(np-1)`), named so the split structure can be stated about it. -/
def greatCircleCoords (start stop : Point) (np : ℤ) : List Position :=
  let startPos := start.coordinates
  let endPos := stop.coordinates
  let lat1 := (positionLatLon startPos).1
  let lon1 := (positionLatLon startPos).2
  let lat2 := (positionLatLon endPos).1
  let lon2 := (positionLatLon endPos).2
  (List.range np.toNat).map (fun (i : ℕ) =>
    let f : ℝ := (i : ℝ) / ((np : ℝ) - 1)
    let p := GreatCircleIntermediatePoint lat1 lon1 lat2 lon2 f
    ((p.2, p.1) : Position))

/-- geojson.go `GreatCircleGeoJSON`. Go returns `(interface{}, error)` where
the interface holds a `LineString` or a `MultiLineString` and the error is
`nil` on every return path; this is modeled as `GeoObj × Option String`. -/
def GreatCircleGeoJSON (start stop : Point) (npoints : ℤ) : GeoObj × Option String :=
  let np : ℤ := if npoints ≤ 0 then 2 else npoints
  let startPos := start.coordinates
  let endPos := stop.coordinates
  if startPos = endPos then
    (GeoObj.lineString (NewLineString (List.replicate np.toNat startPos)), none)
  else
    let coords := greatCircleCoords start stop np
    match splitAntimeridian coords with
    | [l] => (GeoObj.lineString (NewLineString l), none)
    | lines => (GeoObj.multiLineString (NewMultiLineString lines), none)

/-! ### geojson.go: line-point distance -/

/-- Modelled from the spec: `GreatCircleProjectToSegment` is called by
`LinePointDistance` (geojson.go line 332) and by the benchmarks, but its
definition is not among the provided source files. Spec section 4.1: "A
segment-clamped variant must additionally clamp along-track to [0, total]
and recompute cross-track against the clamped/unclamped case: when
along-track falls outside [0,total], return the nearer endpoint as the
projected point and cross-track equal to the straight great-circle distance
to that endpoint (not the perpendicular distance)." -/
def GreatCircleProjectToSegment (lat1 lon1 lat2 lon2 latP lonP : ℝ) : ℝ × ℝ × ℝ × ℝ :=
  let r := GreatCircleProject lat1 lon1 lat2 lon2 latP lonP
  let total := GreatCircleDistance lat1 lon1 lat2 lon2
  let alongTrackKm := r.2.2.2
  if alongTrackKm < 0 then
    (lat1, normalizeLongitude lon1, GreatCircleDistance lat1 lon1 latP lonP, 0)
  else if alongTrackKm > total then
    (lat2, normalizeLongitude lon2, GreatCircleDistance lat2 lon2 latP lonP, total)
  else r

/-- Per-segment absolute cross-track distances in geojson.go
`LinePointDistance` (which calls `GreatCircleProjectToSegment`). -/
def segmentCrossDists (latP lonP : ℝ) : Position → List Position → List ℝ
  | _, [] => []
  | prev, next :: rest =>
    let lat1 := (positionLatLon prev).1
    let lon1 := (positionLatLon prev).2
    let lat2 := (positionLatLon next).1
    let lon2 := (positionLatLon next).2
    |(GreatCircleProjectToSegment lat1 lon1 lat2 lon2 latP lonP).2.2.1| ::
      segmentCrossDists latP lonP next rest

/-- The `minDist := math.Inf(1)` / `if dist < minDist` loop; `none` models the
initial +Inf. -/
def goMinFold (init : Option ℝ) (ds : List ℝ) : Option ℝ :=
  ds.foldl (fun acc d =>
    match acc with
    | none => some d
    | some m => if d < m then some d else some m) init

/-- geojson.go `LinePointDistance`. With at least two coordinates the
segment list is non-empty, so the fold always yields a value; the `none`
fallback (0) is unreachable. -/
def LinePointDistance (line : LineString) (point : Point) : Except String ℝ :=
  match line.coordinates with
  | c0 :: c1 :: rest =>
    let latP := (positionLatLon point.coordinates).1
    let lonP := (positionLatLon point.coordinates).2
    match goMinFold none (segmentCrossDists latP lonP c0 (c1 :: rest)) with
    | some m => .ok m
    | none => .ok 0
  | _ => .error "linestring must have at least 2 coordinates"

/-- The quantity claim C1 asserts `LinePointDistance` computes, written from
the spec's words (section 4.4): minimum over consecutive segments of the
absolute cross-track distance of the UNCLAMPED projection
`GreatCircleProject` (perpendicular distance to the infinite great circle,
not clamped to the segment's endpoints). -/
def specSegmentCrossDistsUnclamped (latP lonP : ℝ) : Position → List Position → List ℝ
  | _, [] => []
  | prev, next :: rest =>
    let lat1 := (positionLatLon prev).1
    let lon1 := (positionLatLon prev).2
    let lat2 := (positionLatLon next).1
    let lon2 := (positionLatLon next).2
    |(GreatCircleProject lat1 lon1 lat2 lon2 latP lonP).2.2.1| ::
      specSegmentCrossDistsUnclamped latP lonP next rest

/-- Spec-side unclamped line-point distance (claim C1's description). -/
def specLinePointDistanceUnclamped (line : LineString) (point : Point) : Except String ℝ :=
  match line.coordinates with
  | c0 :: c1 :: rest =>
    let latP := (positionLatLon point.coordinates).1
    let lonP := (positionLatLon point.coordinates).2
    match goMinFold none (specSegmentCrossDistsUnclamped latP lonP c0 (c1 :: rest)) with
    | some m => .ok m
    | none => .ok 0
  | _ => .error "linestring must have at least 2 coordinates"

/-! ### geojson.go: ring and polygon algorithms -/

/-- geojson.go `pointOnSegment`. -/
def pointOnSegment (p a b : Position) : Bool :=
  let eps : ℝ := 1e-12
  let cross := (p.1 - a.1) * (b.2 - a.2) - (p.2 - a.2) * (b.1 - a.1)
  if |cross| > eps then false
  else
    let dot := (p.1 - a.1) * (b.1 - a.1) + (p.2 - a.2) * (b.2 - a.2)
    if dot < -eps then false
    else
      let sqLen := (b.1 - a.1) * (b.1 - a.1) + (b.2 - a.2) * (b.2 - a.2)
      if dot - sqLen > eps then false
      else true

/-- geojson.go `pointInRing`: boundary-inclusive ray-casting test. -/
def pointInRing (pt : Position) (ring : List Position) : Bool :=
  let n := ring.length
  if n < 3 then false
  else if (List.range (n - 1)).any (fun i =>
      pointOnSegment pt (ring.getD i default) (ring.getD (i+1) default)) then true
  else if decide (ring.getD 0 default ≠ ring.getD (n-1) default) &&
      pointOnSegment pt (ring.getD (n-1) default) (ring.getD 0 default) then true
  else
    let x := pt.1
    let y := pt.2
    let step := fun (st : Bool × ℕ) (i : ℕ) =>
      let j := st.2
      let xi := (ring.getD i default).1
      let yi := (ring.getD i default).2
      let xj := (ring.getD j default).1
      let yj := (ring.getD j default).2
      let intersect := (decide (yi > y) != decide (yj > y)) &&
        decide (x < (xj - xi) * (y - yi) / (yj - yi) + xi)
      (if intersect then !st.1 else st.1, i)
    ((List.range n).foldl step (false, n - 1)).1

/-- geojson.go `pointInPolygon`: inside the exterior ring and in no hole. -/
def pointInPolygon (pt : Position) (poly : Polygon) : Bool :=
  match poly.coordinates with
  | [] => false
  | ring0 :: holes =>
    if !pointInRing pt ring0 then false
    else if holes.any (fun r => pointInRing pt r) then false
    else true

/-- geojson.go `ringAreaCentroid`: shoelace signed area and centroid;
returns (area, cx, cy), all 0 for rings with fewer than 3 points or zero
area. -/
def ringAreaCentroid (ring : List Position) : ℝ × ℝ × ℝ :=
  let n := ring.length
  if n < 3 then (0, 0, 0)
  else
    let acc := (List.range n).foldl (fun (acc : ℝ × ℝ × ℝ) i =>
      let j := (i + 1) % n
      let x0 := (ring.getD i default).1
      let y0 := (ring.getD i default).2
      let x1 := (ring.getD j default).1
      let y1 := (ring.getD j default).2
      let cross := x0 * y1 - x1 * y0
      (acc.1 + cross, acc.2.1 + (x0 + x1) * cross, acc.2.2 + (y0 + y1) * cross))
      (0, 0, 0)
    let area := acc.1 * 0.5
    if area = 0 then (0, 0, 0)
    else (area, acc.2.1 / (6 * area), acc.2.2 / (6 * area))

/-- geojson.go `polygonCentroidArea`: exterior area-weighted centroid with
hole subtraction; returns (centroid, absoluteArea, valid). -/
def polygonCentroidArea (poly : Polygon) : Position × ℝ × Bool :=
  match poly.coordinates with
  | [] => ((0, 0), 0, false)
  | outer :: holes =>
    let o := ringAreaCentroid outer
    if o.1 = 0 then ((0, 0), 0, false)
    else
      let init : ℝ × ℝ × ℝ := (|o.1|, o.2.1 * |o.1|, o.2.2 * |o.1|)
      let s := holes.foldl (fun (acc : ℝ × ℝ × ℝ) ring =>
        let r := ringAreaCentroid ring
        if r.1 = 0 then acc
        else (acc.1 - |r.1|, acc.2.1 - r.2.1 * |r.1|, acc.2.2 - r.2.2 * |r.1|)) init
      if s.1 ≤ 0 then ((0, 0), 0, false)
      else ((s.2.1 / s.1, s.2.2 / s.1), s.1, true)

/-! ### geojson.go: center of mass -/

/-- geojson.go `massAccumulator`. `pointCount` is a Go `int`. -/
structure MassAcc where
  areaSum : ℝ := 0
  areaLonSum : ℝ := 0
  areaLatSum : ℝ := 0
  lengthSum : ℝ := 0
  lengthLonSum : ℝ := 0
  lengthLatSum : ℝ := 0
  pointCount : ℤ := 0
  pointLonSum : ℝ := 0
  pointLatSum : ℝ := 0

/-- geojson.go `massAccumulator.addPoint`. -/
def MassAcc.addPoint (m : MassAcc) (p : Position) : MassAcc :=
  { m with pointCount := m.pointCount + 1,
           pointLonSum := m.pointLonSum + p.1,
           pointLatSum := m.pointLatSum + p.2 }

/-- geojson.go `lineMidpointWithLength`. Under the `length ≥ 2` guard the
inner `lineStringLengthKm` and `LineStringPointAtDistance` calls cannot
fail, matching the Go error flow. -/
def lineMidpointWithLength (line : LineString) : Except String (ℝ × Position) :=
  if line.coordinates.length < 2 then .error "linestring must have at least 2 coordinates"
  else
    match lineStringLengthKm line with
    | .error e => .error e
    | .ok len =>
      if len = 0 then .ok (len, ((0, 0) : Position))
      else
        match LineStringPointAtDistance line (len / 2) with
        | .error e => .error e
        | .ok mid => .ok (len, mid.coordinates)

/-- geojson.go `massAccumulator.addLine`. -/
def MassAcc.addLine (m : MassAcc) (line : LineString) : MassAcc :=
  if line.coordinates.length < 2 then m
  else
    match lineMidpointWithLength line with
    | .error _ => m
    | .ok r =>
      if r.1 = 0 then m
      else { m with lengthSum := m.lengthSum + r.1,
                    lengthLonSum := m.lengthLonSum + r.2.1 * r.1,
                    lengthLatSum := m.lengthLatSum + r.2.2 * r.1 }

/-- geojson.go `massAccumulator.addPolygon`. -/
def MassAcc.addPolygon (m : MassAcc) (poly : Polygon) : MassAcc :=
  let r := polygonCentroidArea poly
  if !r.2.2 || r.2.1 = 0 then m
  else { m with areaSum := m.areaSum + r.2.1,
                areaLonSum := m.areaLonSum + r.1.1 * r.2.1,
                areaLatSum := m.areaLatSum + r.1.2 * r.2.1 }

mutual

/-- geojson.go `massAccumulator.add`: recursive dispatch over the closed
variant set (the Go `default:` error case cannot arise for `GeoObj`). -/
def massAdd (m : MassAcc) : GeoObj → MassAcc
  | .point p => m.addPoint p.coordinates
  | .lineString l => m.addLine l
  | .polygon p => m.addPolygon p
  | .multiLineString ml =>
      ml.coordinates.foldl (fun acc line => acc.addLine ⟨"", line⟩) m
  | .multiPolygon mp =>
      mp.coordinates.foldl (fun acc poly => acc.addPolygon ⟨"", poly⟩) m
  | .feature g => massAdd m g
  | .featureCollection fs => massAddList m fs

/-- The `for i := range g.Features { m.add(g.Features[i]) }` loop. -/
def massAddList (m : MassAcc) : List GeoObj → MassAcc
  | [] => m
  | g :: gs => massAddList (massAdd m g) gs

end

/-- geojson.go `GeoJSONCenterOfMass`. -/
def GeoJSONCenterOfMass (obj : GeoObj) : Except String Point :=
  let acc := massAdd {} obj
  if acc.areaSum > 0 then
    .ok (NewPoint (acc.areaLonSum / acc.areaSum) (acc.areaLatSum / acc.areaSum))
  else if acc.lengthSum > 0 then
    .ok (NewPoint (acc.lengthLonSum / acc.lengthSum) (acc.lengthLatSum / acc.lengthSum))
  else if acc.pointCount > 0 then
    .ok (NewPoint (acc.pointLonSum / (acc.pointCount : ℝ)) (acc.pointLatSum / (acc.pointCount : ℝ)))
  else .error "no coordinates found"

/-! ### Go slice model for the ring-closing step of `ringDistance` -/

/-- A Go slice over its backing array from the slice's offset onward:
`arr` has length equal to the capacity, the slice sees the first `len`
elements. -/
structure GoSlice (α : Type) where
  arr : List α
  len : ℕ
  hle : len ≤ arr.length

/-- The elements the slice's holder observes. -/
def GoSlice.toList {α : Type} (s : GoSlice α) : List α := s.arr.take s.len

/-- Go's single-element `append`: writes in place at index `len` when spare
capacity exists (sharing the backing array), otherwise allocates a fresh
backing array. -/
def goAppend {α : Type} (s : GoSlice α) (x : α) : GoSlice α :=
  if h : s.len < s.arr.length then
    ⟨s.arr.set s.len x, s.len + 1, by simpa using h⟩
  else
    ⟨s.arr.take s.len ++ [x], s.len + 1, by
      have hcap := s.hle
      simp [List.length_take]
      omega⟩

/-- The caller's original slice after `goAppend s x` ran: same `len`, and the
same (possibly updated in place) backing array when it was shared. -/
def callerAfterAppend {α : Type} (s : GoSlice α) (x : α) : GoSlice α :=
  if h : s.len < s.arr.length then
    ⟨s.arr.set s.len x, s.len, by simpa using Nat.le_of_lt h⟩
  else s

/-- The ring-closing step of geojson.go `ringDistance` (lines 823-827):
`coords := ring; if ring[0] != ring[len(ring)-1] { coords = append(coords, ring[0]) }`. -/
def closeRing (ring : GoSlice Position) : GoSlice Position :=
  let first := ring.toList.getD 0 default
  let last := ring.toList.getD (ring.len - 1) default
  if first ≠ last then goAppend ring first else ring

/-- The caller's ring after `closeRing` ran. -/
def callerRingAfterClose (ring : GoSlice Position) : GoSlice Position :=
  let first := ring.toList.getD 0 default
  let last := ring.toList.getD (ring.len - 1) default
  if first ≠ last then callerAfterAppend ring first else ring

end Geo

namespace Geo

/-! ### Helper lemmas: atan2 -/

lemma atan2_eq_arg (y x : ℝ) : atan2 y x = Complex.arg (x + y * Complex.I) := by
  rw [atan2, Complex.mk_eq_add_mul_I]

lemma atan2_nonneg (y x : ℝ) (hy : 0 ≤ y) : 0 ≤ atan2 y x := by
  rw [atan2]
  exact Complex.arg_nonneg_iff.mpr (by simp [hy])

lemma two_mul_atan2_sqrt_nonneg (a b : ℝ) : 0 ≤ 2 * atan2 (Real.sqrt a) b := by
  have h := atan2_nonneg (Real.sqrt a) b (Real.sqrt_nonneg a)
  linarith

lemma atan2_cos_sin {θ : ℝ} (h1 : -π < θ) (h2 : θ ≤ π) :
    atan2 (Real.sin θ) (Real.cos θ) = θ := by
  rw [atan2_eq_arg]
  exact_mod_cast Complex.arg_cos_add_sin_mul_I ⟨h1, h2⟩

lemma atan2_smul {c : ℝ} (hc : 0 < c) (y x : ℝ) : atan2 (c * y) (c * x) = atan2 y x := by
  rw [atan2_eq_arg, atan2_eq_arg]
  have h : ((c * x : ℝ) : ℂ) + (c * y : ℝ) * Complex.I = (c : ℝ) * (x + y * Complex.I) := by
    push_cast
    ring
  rw [h, Complex.arg_real_mul _ hc]

/-- Workhorse: evaluate atan2 at a point given in polar form. -/
lemma atan2_polar {r θ : ℝ} (hr : 0 < r) (h1 : -π < θ) (h2 : θ ≤ π) :
    atan2 (r * Real.sin θ) (r * Real.cos θ) = θ := by
  rw [atan2_smul hr, atan2_cos_sin h1 h2]

lemma atan2_zero_zero : atan2 0 0 = 0 := by
  rw [atan2_eq_arg]
  simp

lemma atan2_sqrt_eq_arcsin {a : ℝ} (h0 : 0 ≤ a) (h1 : a ≤ 1) :
    atan2 (Real.sqrt a) (Real.sqrt (1 - a)) = Real.arcsin (Real.sqrt a) := by
  have hs1 : Real.sqrt a ≤ 1 := by
    rw [show (1:ℝ) = Real.sqrt 1 by simp]
    exact Real.sqrt_le_sqrt h1
  have hsin : Real.sin (Real.arcsin (Real.sqrt a)) = Real.sqrt a :=
    Real.sin_arcsin (by linarith [Real.sqrt_nonneg a]) hs1
  have hcos : Real.cos (Real.arcsin (Real.sqrt a)) = Real.sqrt (1 - a) := by
    rw [Real.cos_arcsin, Real.sq_sqrt h0]
  have hge : 0 ≤ Real.arcsin (Real.sqrt a) := Real.arcsin_nonneg.mpr (Real.sqrt_nonneg a)
  have hle : Real.arcsin (Real.sqrt a) ≤ π := by
    have := Real.arcsin_le_pi_div_two (Real.sqrt a)
    have := Real.pi_pos
    linarith
  calc atan2 (Real.sqrt a) (Real.sqrt (1 - a))
      = atan2 (Real.sin (Real.arcsin (Real.sqrt a))) (Real.cos (Real.arcsin (Real.sqrt a))) := by
        rw [hsin, hcos]
    _ = Real.arcsin (Real.sqrt a) := by
        refine atan2_cos_sin ?_ hle
        have := Real.pi_pos
        linarith

/-! ### Helper lemmas: goMod, normalizeLongitude, unit conversions -/

lemma goTrunc_of_lt_one {x : ℝ} (h0 : 0 ≤ x) (h1 : x < 1) : goTrunc x = 0 := by
  rw [goTrunc, if_pos h0]
  norm_cast
  exact Int.floor_eq_zero_iff.mpr ⟨h0, h1⟩

lemma goTrunc_one : goTrunc 1 = 1 := by
  rw [goTrunc, if_pos zero_le_one]
  norm_num

lemma goMod_of_mem {x y : ℝ} (hy : 0 < y) (h0 : 0 ≤ x) (h1 : x < y) : goMod x y = x := by
  rw [goMod, goTrunc_of_lt_one (by positivity) (by rw [div_lt_one hy]; exact h1)]
  ring

lemma normalizeLongitude_of_mem {lon : ℝ} (h0 : -180 ≤ lon) (h1 : lon < 180) :
    normalizeLongitude lon = lon := by
  rw [normalizeLongitude]
  have h := goMod_of_mem (by norm_num : (0:ℝ) < 360)
    (by linarith : (0:ℝ) ≤ lon + 180) (by linarith : lon + 180 < 360)
  simp only [h]
  rw [if_neg (by linarith)]
  ring

lemma normalizeLongitude_180 : normalizeLongitude (180 : ℝ) = -180 := by
  rw [normalizeLongitude]
  have h : goMod ((180:ℝ) + 180) 360 = 0 := by
    rw [goMod, show ((180:ℝ)+180)/360 = 1 by norm_num, goTrunc_one]
    ring
  simp only [h]
  norm_num

lemma toDegrees_toRadians (x : ℝ) : toDegrees (toRadians x) = x := by
  rw [toRadians, toDegrees]
  field_simp

lemma toRadians_toDegrees (x : ℝ) : toRadians (toDegrees x) = x := by
  rw [toRadians, toDegrees]
  field_simp

/-! ### Helper lemmas: the haversine term -/

/-- The haversine combination always lies in [0, 1]. -/
lemma hav_mem_Icc (φ1 φ2 l : ℝ) :
    0 ≤ Real.sin ((φ2 - φ1)/2) * Real.sin ((φ2 - φ1)/2) +
        Real.cos φ1 * Real.cos φ2 * Real.sin (l/2) * Real.sin (l/2) ∧
    Real.sin ((φ2 - φ1)/2) * Real.sin ((φ2 - φ1)/2) +
        Real.cos φ1 * Real.cos φ2 * Real.sin (l/2) * Real.sin (l/2) ≤ 1 := by
  have hd : Real.sin ((φ2 - φ1)/2) * Real.sin ((φ2 - φ1)/2) = (1 - Real.cos (φ2 - φ1)) / 2 := by
    have := Real.sin_sq_eq_half_sub ((φ2 - φ1)/2)
    have h2 : 2 * ((φ2 - φ1)/2) = φ2 - φ1 := by ring
    rw [h2] at this
    nlinarith [this]
  have hl : Real.sin (l/2) * Real.sin (l/2) = (1 - Real.cos l) / 2 := by
    have := Real.sin_sq_eq_half_sub (l/2)
    have h2 : 2 * (l/2) = l := by ring
    rw [h2] at this
    nlinarith [this]
  have hcossub : Real.cos (φ2 - φ1) =
      Real.cos φ2 * Real.cos φ1 + Real.sin φ2 * Real.sin φ1 := Real.cos_sub φ2 φ1
  have hp1 := Real.sin_sq_add_cos_sq φ1
  have hp2 := Real.sin_sq_add_cos_sq φ2
  have hc1 := Real.neg_one_le_cos l
  have hc2 := Real.cos_le_one l
  have hk : 0 ≤ (1 - Real.cos l) * (1 + Real.cos l) := mul_nonneg (by linarith) (by linarith)
  constructor
  · nlinarith [sq_nonneg (Real.sin φ1 - Real.sin φ2),
      sq_nonneg (Real.cos φ1 - Real.cos φ2 * Real.cos l),
      mul_nonneg (sq_nonneg (Real.cos φ2)) hk]
  · nlinarith [sq_nonneg (Real.sin φ1 + Real.sin φ2),
      sq_nonneg (Real.cos φ1 + Real.cos φ2 * Real.cos l),
      mul_nonneg (sq_nonneg (Real.cos φ2)) hk]

/-- `GreatCircleDistance` is nonnegative (plain helper). -/
lemma GreatCircleDistance_nonneg (lat1 lon1 lat2 lon2 : ℝ) :
    0 ≤ GreatCircleDistance lat1 lon1 lat2 lon2 := by
  simp only [GreatCircleDistance]
  have hR : (0:ℝ) ≤ EarthRadiusKm := by rw [EarthRadiusKm]; norm_num
  exact mul_nonneg hR (two_mul_atan2_sqrt_nonneg _ _)

/-! ### Claim C8 -/

/-- C8: for all coordinate pairs, `GreatCircleDistance(a,b)` equals
`GreatCircleDistance(b,a)` exactly, and the result is nonnegative. -/
theorem C8_greatCircleDistance_symm_nonneg (lat1 lon1 lat2 lon2 : ℝ) :
    GreatCircleDistance lat1 lon1 lat2 lon2 = GreatCircleDistance lat2 lon2 lat1 lon1 ∧
    0 ≤ GreatCircleDistance lat1 lon1 lat2 lon2 := by
  constructor
  · simp only [GreatCircleDistance]
    have h1 : toRadians (lat1 - lat2) = -(toRadians (lat2 - lat1)) := by
      simp only [toRadians]; ring
    have h2 : toRadians (lon1 - lon2) = -(toRadians (lon2 - lon1)) := by
      simp only [toRadians]; ring
    rw [h1, h2]
    have hs1 : Real.sin (-(toRadians (lat2 - lat1)) / 2) = -Real.sin (toRadians (lat2 - lat1) / 2) := by
      rw [neg_div, Real.sin_neg]
    have hs2 : Real.sin (-(toRadians (lon2 - lon1)) / 2) = -Real.sin (toRadians (lon2 - lon1) / 2) := by
      rw [neg_div, Real.sin_neg]
    rw [hs1, hs2]
    ring_nf
  · exact GreatCircleDistance_nonneg lat1 lon1 lat2 lon2

/-! ### Claim C10 -/

lemma splitMatch_snd_none (coords : List Position) :
    (match splitAntimeridian coords with
      | [l] => (GeoObj.lineString (NewLineString l), (none : Option String))
      | lines => (GeoObj.multiLineString (NewMultiLineString lines), none)).2 = none := by
  rcases splitAntimeridian coords with _ | ⟨l, _ | _⟩ <;> rfl

/-- C10: `GreatCircleGeoJSON` returns a nil error for every pair of points
and every integer npoints (including zero and negative values): every
return path of the function passes a nil error. -/
theorem C10_greatCircleGeoJSON_no_error (start stop : Point) (npoints : ℤ) :
    (GreatCircleGeoJSON start stop npoints).2 = none := by
  rw [GreatCircleGeoJSON]
  repeat' split
  all_goals first
  | rfl
  | exact splitMatch_snd_none _

/-! ### Claim C2: slice lemmas -/

lemma take_set_of_le {α : Type} (l : List α) (n m : ℕ) (a : α) (h : m ≤ n) :
    (l.set n a).take m = l.take m := by
  apply List.ext_getElem?
  intro i
  by_cases hi : i < m
  · have hne : n ≠ i := by omega
    simp [List.getElem?_take, hi, List.getElem?_set_ne hne]
  · simp [List.getElem?_take, hi]

lemma take_succ_set {α : Type} (l : List α) (n : ℕ) (a : α) (h : n < l.length) :
    (l.set n a).take (n+1) = l.take n ++ [a] := by
  rw [List.take_succ]
  congr 1
  · exact take_set_of_le l n n a le_rfl
  · simp [List.getElem?_set_self, h]

lemma callerAfterAppend_toList {α : Type} (s : GoSlice α) (x : α) :
    (callerAfterAppend s x).toList = s.toList := by
  rw [callerAfterAppend]
  split
  · simp only [GoSlice.toList]
    exact take_set_of_le s.arr s.len s.len x le_rfl
  · rfl

lemma callerAfterAppend_len {α : Type} (s : GoSlice α) (x : α) :
    (callerAfterAppend s x).len = s.len := by
  rw [callerAfterAppend]
  split <;> rfl

lemma goAppend_toList {α : Type} (s : GoSlice α) (x : α) :
    (goAppend s x).toList = s.toList ++ [x] := by
  rw [goAppend]
  split
  · simp only [GoSlice.toList]
    exact take_succ_set s.arr s.len x (by omega)
  · simp only [GoSlice.toList]
    apply List.take_of_length_le
    simp

/-- C2: the ring-closing step of `ringDistance` (append the first position
when first and last differ) yields the closed sequence while the
caller-supplied ring observes the same length and the same contents after
the call, whether or not the append reallocated; in this sense the closing
builds a new sequence without mutating the caller's ring. -/
theorem C2_closeRing_no_mutation (ring : GoSlice Position) :
    (callerRingAfterClose ring).len = ring.len ∧
    (callerRingAfterClose ring).toList = ring.toList ∧
    (closeRing ring).toList =
      (if ring.toList.getD 0 default ≠ ring.toList.getD (ring.len - 1) default
        then ring.toList ++ [ring.toList.getD 0 default]
        else ring.toList) := by
  refine ⟨?_, ?_, ?_⟩
  · rw [callerRingAfterClose]
    split
    · exact callerAfterAppend_len ring _
    · rfl
  · rw [callerRingAfterClose]
    split
    · exact callerAfterAppend_toList ring _
    · rfl
  · rw [closeRing]
    split
    · exact goAppend_toList ring _
    · rfl

/-! ### Claim C3 -/

/-- C3: `GeoJSONCenterOfMass` resolves by strict priority (area-weighted
centroid if any area accumulated; else length-weighted centroid if any
length; else point average if any points; else an error), and degenerate
contributions are skipped entirely: a line whose total length is zero and a
polygon whose centroid computation is invalid or has zero area leave the
accumulator unchanged. -/
theorem C3_centerOfMass_priority :
    (∀ obj : GeoObj,
      (0 < (massAdd {} obj).areaSum →
        GeoJSONCenterOfMass obj = .ok (NewPoint
          ((massAdd {} obj).areaLonSum / (massAdd {} obj).areaSum)
          ((massAdd {} obj).areaLatSum / (massAdd {} obj).areaSum))) ∧
      (¬ 0 < (massAdd {} obj).areaSum → 0 < (massAdd {} obj).lengthSum →
        GeoJSONCenterOfMass obj = .ok (NewPoint
          ((massAdd {} obj).lengthLonSum / (massAdd {} obj).lengthSum)
          ((massAdd {} obj).lengthLatSum / (massAdd {} obj).lengthSum))) ∧
      (¬ 0 < (massAdd {} obj).areaSum → ¬ 0 < (massAdd {} obj).lengthSum →
        0 < (massAdd {} obj).pointCount →
        GeoJSONCenterOfMass obj = .ok (NewPoint
          ((massAdd {} obj).pointLonSum / ((massAdd {} obj).pointCount : ℝ))
          ((massAdd {} obj).pointLatSum / ((massAdd {} obj).pointCount : ℝ)))) ∧
      (¬ 0 < (massAdd {} obj).areaSum → ¬ 0 < (massAdd {} obj).lengthSum →
        ¬ 0 < (massAdd {} obj).pointCount →
        GeoJSONCenterOfMass obj = .error "no coordinates found")) ∧
    (∀ (m : MassAcc) (ls : LineString), segmentsLengthKm ls.coordinates = 0 →
      m.addLine ls = m) ∧
    (∀ (m : MassAcc) (poly : Polygon),
      (polygonCentroidArea poly).2.2 = false ∨ (polygonCentroidArea poly).2.1 = 0 →
      m.addPolygon poly = m) := by
  refine ⟨?_, ?_, ?_⟩
  · intro obj
    refine ⟨fun h1 => ?_, fun h1 h2 => ?_, fun h1 h2 h3 => ?_, fun h1 h2 h3 => ?_⟩ <;>
      rw [GeoJSONCenterOfMass]
    · rw [if_pos h1]
    · rw [if_neg h1, if_pos h2]
    · rw [if_neg h1, if_neg h2, if_pos h3]
    · rw [if_neg h1, if_neg h2, if_neg h3]
  · intro m ls hzero
    rw [MassAcc.addLine]
    split
    · rfl
    · rw [lineMidpointWithLength]
      rw [if_neg (by omega), lineStringLengthKm, if_neg (by omega), hzero]
      simp
  · intro m poly hskip
    rw [MassAcc.addPolygon]
    rcases hskip with h | h <;> simp [h]

/-- Witness for C3: the square polygon accumulates area 4 with centroid
(1,1) and the priority selection returns it; a zero-length degenerate line
is skipped without touching the accumulator. -/
theorem C3_witness :
    GeoJSONCenterOfMass (GeoObj.polygon (NewPolygon [[(0,0),(2,0),(2,2),(0,2),(0,0)]]))
      = .ok (NewPoint 1 1) ∧
    MassAcc.addLine {} (NewLineString [(0,0),(0,0)]) = ({} : MassAcc) := by
  have hacc : massAdd {} (GeoObj.polygon (NewPolygon [[(0,0),(2,0),(2,2),(0,2),(0,0)]]))
      = { areaSum := 4, areaLonSum := 4, areaLatSum := 4 } := by
    show MassAcc.addPolygon {} (NewPolygon [[(0,0),(2,0),(2,2),(0,2),(0,0)]]) = _
    have hpca : polygonCentroidArea (NewPolygon [[(0,0),(2,0),(2,2),(0,2),(0,0)]])
        = (((1 : ℝ), (1 : ℝ)), (4 : ℝ), true) := by
      norm_num [polygonCentroidArea, NewPolygon, ringAreaCentroid, List.range_succ,
        List.getD, List.foldl]
    rw [MassAcc.addPolygon, hpca]
    norm_num
  constructor
  · have h := (C3_centerOfMass_priority.1
      (GeoObj.polygon (NewPolygon [[(0,0),(2,0),(2,2),(0,2),(0,0)]]))).1
      (by rw [hacc]; norm_num)
    rw [h, hacc]
    norm_num
  · refine C3_centerOfMass_priority.2.1 {} (NewLineString [(0,0),(0,0)]) ?_
    have hgc : GreatCircleDistance 0 0 0 0 = 0 := by
      simp [GreatCircleDistance, toRadians, atan2_eq_arg]
    norm_num [NewLineString, segmentsLengthKm, positionLatLon, hgc]

/-! ### Claim C4 -/

lemma pointInRing_of_onSegment (pt : Position) (ring : List Position) (i : ℕ)
    (hn : 3 ≤ ring.length) (hi : i + 1 < ring.length)
    (hseg : pointOnSegment pt (ring.getD i default) (ring.getD (i+1) default) = true) :
    pointInRing pt ring = true := by
  rw [pointInRing]
  rw [if_neg (by omega)]
  rw [if_pos]
  exact List.any_eq_true.mpr ⟨i, List.mem_range.mpr (by omega), hseg⟩

lemma pointInPolygon_iff (pt : Position) (t : String) (r0 : List Position)
    (holes : List (List Position)) :
    pointInPolygon pt ⟨t, r0 :: holes⟩ = true ↔
      (pointInRing pt r0 = true ∧ ∀ h ∈ holes, pointInRing pt h = false) := by
  show (if !pointInRing pt r0 then false
    else if holes.any (fun r => pointInRing pt r) then false else true) = true ↔ _
  cases hring : pointInRing pt r0 with
  | false => simp [hring]
  | true =>
    simp only [Bool.not_true, Bool.false_eq_true, if_false]
    cases hany : holes.any (fun r => pointInRing pt r) with
    | false =>
      simp only [Bool.false_eq_true, if_false, true_iff]
      refine ⟨by simp, fun h hh => ?_⟩
      have := List.any_eq_false.mp hany h hh
      simp at this
      exact this
    | true =>
      simp only [if_true]
      obtain ⟨h, hh, hr⟩ := List.any_eq_true.mp hany
      constructor
      · intro hc
        exact absurd hc (by simp)
      · intro ⟨_, hall⟩
        rw [hall h hh] at hr
        exact absurd hr (by simp)

/-- C4: `pointInPolygon` is true iff the point is inside the exterior ring
and inside no hole ring (each tested with the boundary-inclusive
`pointInRing`); a point lying exactly on a segment of any ring tests inside
that ring, so a point on a hole's edge is excluded from the polygon while a
point on the exterior edge (outside every hole) is classified inside. -/
theorem C4_pointInPolygon_spec (pt : Position) :
    (∀ t, pointInPolygon pt ⟨t, []⟩ = false) ∧
    (∀ t r0 holes, pointInPolygon pt ⟨t, r0 :: holes⟩ = true ↔
      (pointInRing pt r0 = true ∧ ∀ h ∈ holes, pointInRing pt h = false)) ∧
    (∀ ring i, 3 ≤ ring.length → i + 1 < ring.length →
      pointOnSegment pt (ring.getD i default) (ring.getD (i+1) default) = true →
      pointInRing pt ring = true) ∧
    (∀ t r0 holes h, h ∈ holes → pointInRing pt h = true →
      pointInPolygon pt ⟨t, r0 :: holes⟩ = false) := by
  refine ⟨fun t => rfl, pointInPolygon_iff pt, pointInRing_of_onSegment pt, ?_⟩
  intro t r0 holes h hh hr
  cases hp : pointInPolygon pt ⟨t, r0 :: holes⟩ with
  | false => rfl
  | true =>
    obtain ⟨_, hall⟩ := (pointInPolygon_iff pt t r0 holes).mp hp
    rw [hall h hh] at hr
    exact absurd hr (by simp)

/-- Witness for C4: on the 4x4 square with a unit-square hole, the point
(2,0) on the exterior edge is classified inside, and the point (3/2,1) on
the hole's edge is excluded. -/
theorem C4_witness :
    pointInPolygon (2, 0)
      (NewPolygon [[(0,0),(4,0),(4,4),(0,4),(0,0)], [(1,1),(2,1),(2,2),(1,2),(1,1)]]) = true ∧
    pointInPolygon (3/2, 1)
      (NewPolygon [[(0,0),(4,0),(4,4),(0,4),(0,0)], [(1,1),(2,1),(2,2),(1,2),(1,1)]]) = false := by
  have hExt : pointInRing (2,0) [(0,0),(4,0),(4,4),(0,4),(0,0)] = true := by
    apply (C4_pointInPolygon_spec (2,0)).2.2.1 _ 0 (by norm_num) (by norm_num)
    norm_num [List.getD, pointOnSegment]
  have hHoleF : pointInRing (2,0) [(1,1),(2,1),(2,2),(1,2),(1,1)] = false := by
    norm_num [pointInRing, pointOnSegment, List.range_succ, List.getD, List.foldl]
  have hHoleT : pointInRing (3/2,1) [(1,1),(2,1),(2,2),(1,2),(1,1)] = true := by
    apply (C4_pointInPolygon_spec (3/2,1)).2.2.1 _ 0 (by norm_num) (by norm_num)
    norm_num [List.getD, pointOnSegment]
  constructor
  · show pointInPolygon (2,0)
      (⟨"Polygon", [(0,0),(4,0),(4,4),(0,4),(0,0)] :: [[(1,1),(2,1),(2,2),(1,2),(1,1)]]⟩ : Polygon) = true
    apply ((C4_pointInPolygon_spec (2,0)).2.1 "Polygon" _ _).mpr
    refine ⟨hExt, fun h hh => ?_⟩
    rw [List.mem_singleton.mp hh]
    exact hHoleF
  · show pointInPolygon (3/2,1)
      (⟨"Polygon", [(0,0),(4,0),(4,4),(0,4),(0,0)] :: [[(1,1),(2,1),(2,2),(1,2),(1,1)]]⟩ : Polygon) = false
    exact (C4_pointInPolygon_spec (3/2,1)).2.2.2 "Polygon" _ _ _
      (List.mem_singleton.mpr rfl) hHoleT

/-! ### Helper lemmas: recovery of a (lat, lon) pair from its unit vector -/

lemma toRadians_lt_pi_div_two {lat : ℝ} (h : |lat| < 90) :
    |toRadians lat| < π / 2 := by
  rw [toRadians, abs_div, abs_mul, abs_of_pos Real.pi_pos, show |(180:ℝ)| = 180 by norm_num]
  rw [div_lt_iff₀ (by norm_num)]
  nlinarith [Real.pi_pos]

lemma toRadians_neg_pi_le {lon : ℝ} (h : -180 ≤ lon) : -π ≤ toRadians lon := by
  rw [toRadians, le_div_iff₀ (by norm_num : (0:ℝ) < 180)]
  nlinarith [Real.pi_pos]

lemma toRadians_le_pi {lon : ℝ} (h : lon ≤ 180) : toRadians lon ≤ π := by
  rw [toRadians, div_le_iff₀ (by norm_num : (0:ℝ) < 180)]
  nlinarith [Real.pi_pos]

lemma toRadians_lt_pi {lon : ℝ} (h : lon < 180) : toRadians lon < π := by
  rw [toRadians, div_lt_iff₀ (by norm_num : (0:ℝ) < 180)]
  nlinarith [Real.pi_pos]

lemma neg_pi_lt_toRadians {lon : ℝ} (h : -180 < lon) : -π < toRadians lon := by
  rw [toRadians, lt_div_iff₀ (by norm_num : (0:ℝ) < 180)]
  nlinarith [Real.pi_pos]

/-- Recovering latitude and longitude from the unit vector
(cos lat cos lon, cos lat sin lon, sin lat), as the slerp endpoint cases of
`GreatCircleIntermediatePoint` do. -/
lemma recover_latlon {lat lon : ℝ} (hlat : |lat| < 90) (h1 : -180 ≤ lon) (h2 : lon < 180) :
    toDegrees (atan2 (Real.sin (toRadians lat))
      (Real.sqrt (Real.cos (toRadians lat) * Real.cos (toRadians lon) *
          (Real.cos (toRadians lat) * Real.cos (toRadians lon)) +
        Real.cos (toRadians lat) * Real.sin (toRadians lon) *
          (Real.cos (toRadians lat) * Real.sin (toRadians lon))))) = lat ∧
    normalizeLongitude (toDegrees (atan2
      (Real.cos (toRadians lat) * Real.sin (toRadians lon))
      (Real.cos (toRadians lat) * Real.cos (toRadians lon)))) = lon := by
  have hφ := toRadians_lt_pi_div_two hlat
  have hφ1 : -(π/2) < toRadians lat := by
    have := abs_lt.mp hφ
    linarith [this.1]
  have hφ2 : toRadians lat < π/2 := (abs_lt.mp hφ).2
  have hcos : 0 < Real.cos (toRadians lat) :=
    Real.cos_pos_of_mem_Ioo ⟨by linarith, hφ2⟩
  constructor
  · have hsum : Real.cos (toRadians lat) * Real.cos (toRadians lon) *
          (Real.cos (toRadians lat) * Real.cos (toRadians lon)) +
        Real.cos (toRadians lat) * Real.sin (toRadians lon) *
          (Real.cos (toRadians lat) * Real.sin (toRadians lon)) =
        Real.cos (toRadians lat) * Real.cos (toRadians lat) := by
      have hpy := Real.sin_sq_add_cos_sq (toRadians lon)
      nlinarith [hpy]
    rw [hsum, Real.sqrt_mul_self hcos.le]
    rw [atan2_cos_sin (by linarith [Real.pi_gt_three]) (by linarith [Real.pi_gt_three])]
    exact toDegrees_toRadians lat
  · rw [atan2_smul hcos]
    rcases eq_or_lt_of_le h1 with heq | hlt
    · have hlon : lon = -180 := heq.symm
      subst hlon
      have hmPi : toRadians (-180 : ℝ) = -π := by
        rw [toRadians]
        ring
      rw [hmPi]
      have harg : atan2 (Real.sin (-π)) (Real.cos (-π)) = π := by
        rw [Real.sin_neg, Real.sin_pi, Real.cos_neg, Real.cos_pi, atan2]
        exact Complex.arg_eq_pi_iff.mpr ⟨by norm_num, by norm_num⟩
      rw [harg, show toDegrees π = 180 from by rw [toDegrees]; field_simp,
        normalizeLongitude_180]
    · rw [atan2_cos_sin (neg_pi_lt_toRadians hlt) (toRadians_lt_pi h2).le]
      rw [toDegrees_toRadians]
      exact normalizeLongitude_of_mem (by linarith) h2

/-! ### The haversine term of GreatCircleIntermediatePoint -/

/-- The haversine combination computed inside `GreatCircleIntermediatePoint`;
it is 0 iff the two points have zero angular separation and 1 iff they are
antipodal. -/
def havAngle (lat1 lon1 lat2 lon2 : ℝ) : ℝ :=
  Real.sin ((toRadians lat2 - toRadians lat1) / 2) *
      Real.sin ((toRadians lat2 - toRadians lat1) / 2) +
    Real.cos (toRadians lat1) * Real.cos (toRadians lat2) *
      Real.sin ((toRadians lon2 - toRadians lon1) / 2) *
      Real.sin ((toRadians lon2 - toRadians lon1) / 2)

lemma havAngle_mem (lat1 lon1 lat2 lon2 : ℝ) :
    0 ≤ havAngle lat1 lon1 lat2 lon2 ∧ havAngle lat1 lon1 lat2 lon2 ≤ 1 := by
  rw [havAngle]
  exact hav_mem_Icc (toRadians lat1) (toRadians lat2) (toRadians lon2 - toRadians lon1)

lemma delta_arcsin {a : ℝ} (h0 : 0 ≤ a) (h1 : a ≤ 1) :
    2 * atan2 (Real.sqrt a) (Real.sqrt (1 - a)) = 2 * Real.arcsin (Real.sqrt a) := by
  rw [atan2_sqrt_eq_arcsin h0 h1]

lemma delta_pos_lt_pi {a : ℝ} (h0 : 0 < a) (h1 : a < 1) :
    0 < 2 * Real.arcsin (Real.sqrt a) ∧ 2 * Real.arcsin (Real.sqrt a) < π := by
  have hs0 : 0 < Real.sqrt a := Real.sqrt_pos.mpr h0
  have hs1 : Real.sqrt a < 1 := by
    rw [show (1:ℝ) = Real.sqrt 1 by simp]
    exact Real.sqrt_lt_sqrt h0.le h1
  constructor
  · have := Real.arcsin_pos.mpr hs0
    linarith
  · have := Real.arcsin_lt_pi_div_two.mpr hs1
    linarith

/-- Endpoint recovery for `GreatCircleIntermediatePoint`: with latitudes
strictly inside (-90, 90), longitudes in [-180, 180), and a strictly
positive, non-antipodal angular separation, fraction 0 returns the start
point exactly and fraction 1 returns the end point exactly. -/
lemma GCIP_endpoints (lat1 lon1 lat2 lon2 : ℝ)
    (h1a : |lat1| < 90) (h1b : -180 ≤ lon1) (h1c : lon1 < 180)
    (h2a : |lat2| < 90) (h2b : -180 ≤ lon2) (h2c : lon2 < 180)
    (hne0 : havAngle lat1 lon1 lat2 lon2 ≠ 0)
    (hne1 : havAngle lat1 lon1 lat2 lon2 ≠ 1) :
    GreatCircleIntermediatePoint lat1 lon1 lat2 lon2 0 = (lat1, lon1) ∧
    GreatCircleIntermediatePoint lat1 lon1 lat2 lon2 1 = (lat2, lon2) := by
  have hmem := havAngle_mem lat1 lon1 lat2 lon2
  have h0 : 0 < havAngle lat1 lon1 lat2 lon2 := lt_of_le_of_ne hmem.1 (Ne.symm hne0)
  have h1 : havAngle lat1 lon1 lat2 lon2 < 1 := lt_of_le_of_ne hmem.2 hne1
  have hδa : 2 * atan2 (Real.sqrt (havAngle lat1 lon1 lat2 lon2))
      (Real.sqrt (1 - havAngle lat1 lon1 lat2 lon2)) =
      2 * Real.arcsin (Real.sqrt (havAngle lat1 lon1 lat2 lon2)) :=
    delta_arcsin hmem.1 hmem.2
  have hδrange := delta_pos_lt_pi h0 h1
  have hδne : 2 * atan2 (Real.sqrt (havAngle lat1 lon1 lat2 lon2))
      (Real.sqrt (1 - havAngle lat1 lon1 lat2 lon2)) ≠ 0 := by
    rw [hδa]
    exact ne_of_gt hδrange.1
  have hsinδ : Real.sin (2 * atan2 (Real.sqrt (havAngle lat1 lon1 lat2 lon2))
      (Real.sqrt (1 - havAngle lat1 lon1 lat2 lon2))) ≠ 0 := by
    rw [hδa]
    exact ne_of_gt (Real.sin_pos_of_pos_of_lt_pi hδrange.1 hδrange.2)
  constructor
  · rw [GreatCircleIntermediatePoint]
    have hfold : Real.sin ((toRadians lat2 - toRadians lat1) / 2) *
        Real.sin ((toRadians lat2 - toRadians lat1) / 2) +
        Real.cos (toRadians lat1) * Real.cos (toRadians lat2) *
        Real.sin ((toRadians lon2 - toRadians lon1) / 2) *
        Real.sin ((toRadians lon2 - toRadians lon1) / 2) = havAngle lat1 lon1 lat2 lon2 := rfl
    rw [hfold]
    rw [if_neg hδne]
    simp only [sub_zero, one_mul, zero_mul, Real.sin_zero, zero_div,
      div_self hsinδ, add_zero, zero_add]
    rw [(recover_latlon h1a h1b h1c).1, (recover_latlon h1a h1b h1c).2]
  · rw [GreatCircleIntermediatePoint]
    have hfold : Real.sin ((toRadians lat2 - toRadians lat1) / 2) *
        Real.sin ((toRadians lat2 - toRadians lat1) / 2) +
        Real.cos (toRadians lat1) * Real.cos (toRadians lat2) *
        Real.sin ((toRadians lon2 - toRadians lon1) / 2) *
        Real.sin ((toRadians lon2 - toRadians lon1) / 2) = havAngle lat1 lon1 lat2 lon2 := rfl
    rw [hfold]
    rw [if_neg hδne]
    simp only [sub_self, one_mul, zero_mul, Real.sin_zero, zero_div,
      div_self hsinδ, add_zero, zero_add]
    rw [(recover_latlon h2a h2b h2c).1, (recover_latlon h2a h2b h2c).2]

/-- Zero angular separation: `GreatCircleIntermediatePoint` returns the
start point with normalized longitude, for every fraction. -/
lemma GCIP_degenerate (lat1 lon1 lat2 lon2 f : ℝ)
    (h : havAngle lat1 lon1 lat2 lon2 = 0) :
    GreatCircleIntermediatePoint lat1 lon1 lat2 lon2 f = (lat1, normalizeLongitude lon1) := by
  rw [GreatCircleIntermediatePoint]
  have hfold : Real.sin ((toRadians lat2 - toRadians lat1) / 2) *
      Real.sin ((toRadians lat2 - toRadians lat1) / 2) +
      Real.cos (toRadians lat1) * Real.cos (toRadians lat2) *
      Real.sin ((toRadians lon2 - toRadians lon1) / 2) *
      Real.sin ((toRadians lon2 - toRadians lon1) / 2) = havAngle lat1 lon1 lat2 lon2 := rfl
  rw [hfold, h]
  have hz : 2 * atan2 (Real.sqrt 0) (Real.sqrt (1 - 0)) = 0 := by
    rw [Real.sqrt_zero, show (1:ℝ) - 0 = 1 by norm_num, Real.sqrt_one]
    rw [atan2_eq_arg]
    simp
  rw [if_pos hz]

/-- C6 (amended): for endpoints with latitudes in (-90, 90), longitudes in
[-180, 180), non-coincident and non-antipodal on the sphere (the haversine
term is neither 0 nor 1), fraction 0 returns the start point and fraction 1
the end point exactly (hence within the claimed 1e-9); and whenever the
angular separation is zero the result is the start point with its longitude
normalized. The original claim's "for all a ≠ b" fails for out-of-range
latitudes (see the counterexample). -/
theorem C6_intermediatePoint_endpoints (lat1 lon1 lat2 lon2 : ℝ)
    (h1a : |lat1| < 90) (h1b : -180 ≤ lon1) (h1c : lon1 < 180)
    (h2a : |lat2| < 90) (h2b : -180 ≤ lon2) (h2c : lon2 < 180)
    (hne0 : havAngle lat1 lon1 lat2 lon2 ≠ 0)
    (hne1 : havAngle lat1 lon1 lat2 lon2 ≠ 1) :
    (GreatCircleIntermediatePoint lat1 lon1 lat2 lon2 0 = (lat1, lon1) ∧
     GreatCircleIntermediatePoint lat1 lon1 lat2 lon2 1 = (lat2, lon2)) ∧
    (∀ a b c d f, havAngle a b c d = 0 →
      GreatCircleIntermediatePoint a b c d f = (a, normalizeLongitude b)) :=
  ⟨GCIP_endpoints lat1 lon1 lat2 lon2 h1a h1b h1c h2a h2b h2c hne0 hne1,
   GCIP_degenerate⟩

/-- C6 counterexample: for a = (lat 100, lon 0) and b = (0, 0), which are
distinct, `GreatCircleIntermediatePoint(a, b, 0)` returns latitude 80, not
100: the fold-back of the out-of-range latitude breaks the claimed
`(a,b,0) == a` within 1e-9 (latitude is unchecked per the data model). -/
theorem C6_counterexample :
    ((100:ℝ), (0:ℝ)) ≠ ((0:ℝ), (0:ℝ)) ∧
    (GreatCircleIntermediatePoint 100 0 0 0 0).1 = 80 ∧
    ¬ |(GreatCircleIntermediatePoint 100 0 0 0 0).1 - 100| ≤ 1e-9 := by
  have hpi := Real.pi_pos
  have h100 : toRadians 100 = 5*π/9 := by rw [toRadians]; ring
  have h0 : toRadians 0 = 0 := by rw [toRadians]; ring
  have hs18 : (0:ℝ) < Real.sin (5*π/18) :=
    Real.sin_pos_of_pos_of_lt_pi (by positivity) (by nlinarith)
  have hc18 : (0:ℝ) < Real.cos (5*π/18) :=
    Real.cos_pos_of_mem_Ioo ⟨by nlinarith, by nlinarith⟩
  have hc49 : (0:ℝ) < Real.cos (4*π/9) :=
    Real.cos_pos_of_mem_Ioo ⟨by nlinarith, by nlinarith⟩
  have hmain : (GreatCircleIntermediatePoint 100 0 0 0 0).1 = toDegrees (4*π/9) := by
    rw [GreatCircleIntermediatePoint]
    rw [h100, h0]
    have hsimp1 : ((0:ℝ) - 5*π/9)/2 = -(5*π/18) := by ring
    have hsimp2 : ((0:ℝ) - 0)/2 = 0 := by ring
    rw [hsimp1, hsimp2, Real.sin_neg, Real.sin_zero]
    have hA : -Real.sin (5*π/18) * -Real.sin (5*π/18) +
        Real.cos (5*π/9) * Real.cos 0 * 0 * 0 =
        Real.sin (5*π/18) * Real.sin (5*π/18) := by ring
    rw [hA]
    have hsq1 : Real.sqrt (Real.sin (5*π/18) * Real.sin (5*π/18)) = Real.sin (5*π/18) :=
      Real.sqrt_mul_self hs18.le
    have hone : 1 - Real.sin (5*π/18) * Real.sin (5*π/18) =
        Real.cos (5*π/18) * Real.cos (5*π/18) := by
      nlinarith [Real.sin_sq_add_cos_sq (5*π/18)]
    have hsq2 : Real.sqrt (1 - Real.sin (5*π/18) * Real.sin (5*π/18)) = Real.cos (5*π/18) := by
      rw [hone]
      exact Real.sqrt_mul_self hc18.le
    rw [hsq1, hsq2]
    rw [atan2_cos_sin (by nlinarith) (by nlinarith)]
    have hδ : 2 * (5*π/18) = 5*π/9 := by ring
    rw [hδ]
    rw [if_neg (by positivity)]
    have hsin59 : (0:ℝ) < Real.sin (5*π/9) :=
      Real.sin_pos_of_pos_of_lt_pi (by positivity) (by nlinarith)
    simp only [sub_zero, one_mul, zero_mul, Real.sin_zero, zero_div,
      div_self (ne_of_gt hsin59), add_zero, zero_add, Real.cos_zero, mul_one, mul_zero]
    have hx : Real.cos (5*π/9) * Real.cos (5*π/9) =
        Real.cos (4*π/9) * Real.cos (4*π/9) := by
      rw [show (5:ℝ)*π/9 = π - 4*π/9 by ring, Real.cos_pi_sub]
      ring
    rw [hx, Real.sqrt_mul_self hc49.le]
    rw [show (5:ℝ)*π/9 = π - 4*π/9 by ring, Real.sin_pi_sub]
    rw [atan2_cos_sin (by nlinarith) (by nlinarith)]
  have hdeg : toDegrees (4*π/9) = 80 := by
    rw [toDegrees]
    field_simp
    ring
  refine ⟨by simp, ?_, ?_⟩
  · rw [hmain, hdeg]
  · rw [hmain, hdeg]
    norm_num

/-- Witness for C6 (amended): from (0,0) to (0,90) (in-range,
non-antipodal), fraction 0 gives back (0,0) and fraction 1 gives (0,90). -/
theorem C6_witness :
    GreatCircleIntermediatePoint 0 0 0 90 0 = (0, 0) ∧
    GreatCircleIntermediatePoint 0 0 0 90 1 = (0, 90) := by
  have hhav : havAngle 0 0 0 90 = 1/2 := by
    rw [havAngle]
    have h90 : toRadians 90 = π/2 := by rw [toRadians]; ring
    have h0 : toRadians 0 = 0 := by rw [toRadians]; ring
    rw [h90, h0]
    have h1 : ((0:ℝ) - 0)/2 = 0 := by ring
    have h2 : (π/2 - 0)/2 = π/4 := by ring
    rw [h1, h2, Real.sin_zero, Real.cos_zero, Real.sin_pi_div_four]
    have : Real.sqrt 2 / 2 * (Real.sqrt 2 / 2) = 1/2 := by
      rw [div_mul_div_comm, Real.mul_self_sqrt (by norm_num : (0:ℝ) ≤ 2)]
      norm_num
    nlinarith [this]
  have h := C6_intermediatePoint_endpoints 0 0 0 90
    (by norm_num) (by norm_num) (by norm_num)
    (by norm_num) (by norm_num) (by norm_num)
    (by rw [hhav]; norm_num) (by rw [hhav]; norm_num)
  exact h.1

/-! ### Claim C9 -/

lemma walk_beyond (r : ℝ) (prev : Position) (rest : List Position)
    (h : segmentsLengthKm (prev :: rest) < r) :
    walkToDistance r prev rest =
      pointFromLatLon (rest.getLastD prev).2 (rest.getLastD prev).1 := by
  induction rest generalizing r prev with
  | nil => rfl
  | cons next rest ih =>
    rw [walkToDistance]
    simp only [positionLatLon]
    have hseg : segmentsLengthKm (prev :: next :: rest) =
        GreatCircleDistance prev.2 prev.1 next.2 next.1 + segmentsLengthKm (next :: rest) := rfl
    have htail : 0 ≤ segmentsLengthKm (next :: rest) := by
      clear h ih hseg
      induction rest generalizing next with
      | nil => exact le_refl 0
      | cons c cs ihc =>
        rw [show segmentsLengthKm (next :: c :: cs) =
          GreatCircleDistance next.2 next.1 c.2 c.1 + segmentsLengthKm (c :: cs) from rfl]
        have := GreatCircleDistance_nonneg next.2 next.1 c.2 c.1
        have := ihc c
        linarith
    rw [hseg] at h
    rw [if_neg (by linarith)]
    rw [ih _ _ (by linarith)]
    rcases rest with _ | ⟨c, cs⟩
    · simp
    · obtain ⟨x, hx⟩ := Option.isSome_iff_exists.mp (List.getLast?_isSome.mpr (by simp) :
        (c :: cs).getLast?.isSome)
      simp [List.getLastD, hx]

/-- C9 (amended): `LineStringPointAtDistance` errors exactly when the line
has fewer than 2 coordinates; for distance ≤ 0 it returns the first
coordinate; for distance strictly greater than the total length it returns
the last coordinate; otherwise it walks the segments and interpolates at
the corresponding fraction of the first segment within which the remaining
distance fits. (The original "distance ≥ total returns the last coordinate"
fails at exact equality when the final interpolation does not recover the
segment endpoint; see the counterexample.) -/
theorem C9_pointAtDistance_spec :
    (∀ (line : LineString) (d : ℝ),
      (∃ e, LineStringPointAtDistance line d = .error e) ↔ line.coordinates.length < 2) ∧
    (∀ (t : String) (c0 c1 : Position) (rest : List Position) (d : ℝ), d ≤ 0 →
      LineStringPointAtDistance ⟨t, c0 :: c1 :: rest⟩ d = .ok (pointFromLatLon c0.2 c0.1)) ∧
    (∀ (t : String) (c0 c1 : Position) (rest : List Position) (d : ℝ), 0 < d →
      LineStringPointAtDistance ⟨t, c0 :: c1 :: rest⟩ d =
        .ok (walkToDistance d c0 (c1 :: rest))) ∧
    (∀ (r : ℝ) (prev next : Position) (rest : List Position),
      r ≤ GreatCircleDistance prev.2 prev.1 next.2 next.1 →
      walkToDistance r prev (next :: rest) =
        pointFromLatLon
          (GreatCircleIntermediatePoint prev.2 prev.1 next.2 next.1
            (r / GreatCircleDistance prev.2 prev.1 next.2 next.1)).1
          (GreatCircleIntermediatePoint prev.2 prev.1 next.2 next.1
            (r / GreatCircleDistance prev.2 prev.1 next.2 next.1)).2) ∧
    (∀ (r : ℝ) (prev next : Position) (rest : List Position),
      GreatCircleDistance prev.2 prev.1 next.2 next.1 < r →
      walkToDistance r prev (next :: rest) =
        walkToDistance (r - GreatCircleDistance prev.2 prev.1 next.2 next.1) next rest) ∧
    (∀ (r : ℝ) (prev : Position) (rest : List Position),
      segmentsLengthKm (prev :: rest) < r →
      walkToDistance r prev rest =
        pointFromLatLon (rest.getLastD prev).2 (rest.getLastD prev).1) := by
  refine ⟨?_, ?_, ?_, ?_, ?_, walk_beyond⟩
  · intro line d
    rcases hco : line.coordinates with _ | ⟨c0, _ | ⟨c1, rest⟩⟩ <;>
      rw [LineStringPointAtDistance] <;> rw [hco] <;> simp
    split <;> simp
  · intro t c0 c1 rest d hd
    rw [LineStringPointAtDistance]
    simp only [if_pos hd]
    rfl
  · intro t c0 c1 rest d hd
    rw [LineStringPointAtDistance]
    simp only [if_neg (not_le.mpr hd)]
  · intro r prev next rest hr
    rw [walkToDistance]
    simp only [positionLatLon]
    rw [if_pos hr]
  · intro r prev next rest hr
    rw [walkToDistance]
    simp only [positionLatLon]
    rw [if_neg (not_le.mpr hr)]

/-- Latitude fold-back evaluation shared shape: the recovered latitude
component for an endpoint at latitude 100 degrees is 80 degrees. -/
lemma GCIP_lat100_frac_one : (GreatCircleIntermediatePoint 0 0 100 0 1).1 = 80 := by
  have hpi := Real.pi_pos
  have h100 : toRadians 100 = 5*π/9 := by rw [toRadians]; ring
  have h0 : toRadians 0 = 0 := by rw [toRadians]; ring
  have hs18 : (0:ℝ) < Real.sin (5*π/18) :=
    Real.sin_pos_of_pos_of_lt_pi (by positivity) (by nlinarith)
  have hc18 : (0:ℝ) < Real.cos (5*π/18) :=
    Real.cos_pos_of_mem_Ioo ⟨by nlinarith, by nlinarith⟩
  have hc49 : (0:ℝ) < Real.cos (4*π/9) :=
    Real.cos_pos_of_mem_Ioo ⟨by nlinarith, by nlinarith⟩
  have hmain : (GreatCircleIntermediatePoint 0 0 100 0 1).1 = toDegrees (4*π/9) := by
    rw [GreatCircleIntermediatePoint]
    rw [h100, h0]
    have hsimp1 : (5*π/9 - 0)/2 = 5*π/18 := by ring
    have hsimp2 : ((0:ℝ) - 0)/2 = 0 := by ring
    rw [hsimp1, hsimp2, Real.sin_zero]
    have hA : Real.sin (5*π/18) * Real.sin (5*π/18) +
        Real.cos 0 * Real.cos (5*π/9) * 0 * 0 =
        Real.sin (5*π/18) * Real.sin (5*π/18) := by ring
    rw [hA]
    have hsq1 : Real.sqrt (Real.sin (5*π/18) * Real.sin (5*π/18)) = Real.sin (5*π/18) :=
      Real.sqrt_mul_self hs18.le
    have hone : 1 - Real.sin (5*π/18) * Real.sin (5*π/18) =
        Real.cos (5*π/18) * Real.cos (5*π/18) := by
      nlinarith [Real.sin_sq_add_cos_sq (5*π/18)]
    have hsq2 : Real.sqrt (1 - Real.sin (5*π/18) * Real.sin (5*π/18)) = Real.cos (5*π/18) := by
      rw [hone]
      exact Real.sqrt_mul_self hc18.le
    rw [hsq1, hsq2]
    rw [atan2_cos_sin (by nlinarith) (by nlinarith)]
    have hδ : 2 * (5*π/18) = 5*π/9 := by ring
    rw [hδ]
    rw [if_neg (by positivity)]
    have hsin59 : (0:ℝ) < Real.sin (5*π/9) :=
      Real.sin_pos_of_pos_of_lt_pi (by positivity) (by nlinarith)
    simp only [sub_self, one_mul, zero_mul, Real.sin_zero, zero_div,
      div_self (ne_of_gt hsin59), add_zero, zero_add, Real.cos_zero, Real.sin_zero,
      mul_one, mul_zero]
    have hx : Real.cos (5*π/9) * Real.cos (5*π/9) =
        Real.cos (4*π/9) * Real.cos (4*π/9) := by
      rw [show (5:ℝ)*π/9 = π - 4*π/9 by ring, Real.cos_pi_sub]
      ring
    rw [hx, Real.sqrt_mul_self hc49.le]
    rw [show (5:ℝ)*π/9 = π - 4*π/9 by ring, Real.sin_pi_sub]
    rw [atan2_cos_sin (by nlinarith) (by nlinarith)]
  rw [hmain, toDegrees]
  field_simp
  ring

/-- Nonzero total length of the counterexample line. -/
lemma gcd_0_0_100_0_pos : 0 < GreatCircleDistance 0 0 100 0 := by
  have hpi := Real.pi_pos
  have h100 : toRadians 100 = 5*π/9 := by rw [toRadians]; ring
  have h0 : toRadians 0 = 0 := by rw [toRadians]; ring
  have hs18 : (0:ℝ) < Real.sin (5*π/18) :=
    Real.sin_pos_of_pos_of_lt_pi (by positivity) (by nlinarith)
  have hc18 : (0:ℝ) < Real.cos (5*π/18) :=
    Real.cos_pos_of_mem_Ioo ⟨by nlinarith, by nlinarith⟩
  have hmain : GreatCircleDistance 0 0 100 0 = EarthRadiusKm * (2 * (5*π/18)) := by
    rw [GreatCircleDistance]
    rw [show (100:ℝ) - 0 = 100 by norm_num, show (0:ℝ) - 0 = 0 by norm_num]
    rw [h100, h0]
    have hsimp1 : 5*π/9/2 = 5*π/18 := by ring
    have hsimp2 : (0:ℝ)/2 = 0 := by norm_num
    rw [hsimp1, hsimp2, Real.sin_zero]
    have hA : Real.sin (5*π/18) * Real.sin (5*π/18) +
        Real.cos 0 * Real.cos (5*π/9) * 0 * 0 =
        Real.sin (5*π/18) * Real.sin (5*π/18) := by ring
    rw [hA]
    have hsq1 : Real.sqrt (Real.sin (5*π/18) * Real.sin (5*π/18)) = Real.sin (5*π/18) :=
      Real.sqrt_mul_self hs18.le
    have hone : 1 - Real.sin (5*π/18) * Real.sin (5*π/18) =
        Real.cos (5*π/18) * Real.cos (5*π/18) := by
      nlinarith [Real.sin_sq_add_cos_sq (5*π/18)]
    have hsq2 : Real.sqrt (1 - Real.sin (5*π/18) * Real.sin (5*π/18)) = Real.cos (5*π/18) := by
      rw [hone]
      exact Real.sqrt_mul_self hc18.le
    rw [hsq1, hsq2]
    rw [atan2_cos_sin (by nlinarith) (by nlinarith)]
  rw [hmain, EarthRadiusKm]
  positivity

/-- Reduction of `LineStringPointAtDistance` for a positive distance on a
well-formed line. -/
lemma LSPAD_cons_pos (t : String) (c0 c1 : Position) (rest : List Position) (d : ℝ)
    (hd : 0 < d) :
    LineStringPointAtDistance ⟨t, c0 :: c1 :: rest⟩ d =
      .ok (walkToDistance d c0 (c1 :: rest)) := by
  show (if d ≤ 0 then
      Except.ok (pointFromLatLon (positionLatLon c0).1 (positionLatLon c0).2)
    else Except.ok (walkToDistance d c0 (c1 :: rest))) = _
  rw [if_neg (not_le.mpr hd)]

/-- C9 counterexample: for the line [(0,0),(0,100)] and distance exactly
equal to the total length, the code interpolates at fraction 1 of the last
segment, whose latitude folds back to 80; it does NOT return the last
coordinate (latitude 100). So "distance ≥ total length returns the last
coordinate" fails at equality. -/
theorem C9_counterexample :
    segmentsLengthKm [((0:ℝ),(0:ℝ)), ((0:ℝ),(100:ℝ))] = GreatCircleDistance 0 0 100 0 ∧
    LineStringPointAtDistance (NewLineString [(0,0),(0,100)]) (GreatCircleDistance 0 0 100 0)
      ≠ Except.ok (pointFromLatLon 100 0) := by
  have hpos := gcd_0_0_100_0_pos
  constructor
  · show GreatCircleDistance 0 0 100 0 + 0 = GreatCircleDistance 0 0 100 0
    ring
  · have hres : LineStringPointAtDistance (NewLineString [(0,0),(0,100)])
        (GreatCircleDistance 0 0 100 0) =
        .ok (pointFromLatLon (GreatCircleIntermediatePoint 0 0 100 0 1).1
          (GreatCircleIntermediatePoint 0 0 100 0 1).2) := by
      rw [NewLineString, LSPAD_cons_pos _ _ _ _ _ hpos]
      rw [walkToDistance]
      simp only [positionLatLon]
      rw [if_pos le_rfl]
      rw [div_self (ne_of_gt hpos)]
    rw [hres]
    intro heq
    have hcoord : (pointFromLatLon (GreatCircleIntermediatePoint 0 0 100 0 1).1
        (GreatCircleIntermediatePoint 0 0 100 0 1).2).coordinates.2 =
        (pointFromLatLon 100 0).coordinates.2 := by
      rw [Except.ok.injEq] at heq
      rw [heq]
    rw [show (pointFromLatLon (GreatCircleIntermediatePoint 0 0 100 0 1).1
        (GreatCircleIntermediatePoint 0 0 100 0 1).2).coordinates.2 =
        (GreatCircleIntermediatePoint 0 0 100 0 1).1 from rfl] at hcoord
    rw [GCIP_lat100_frac_one] at hcoord
    have : (80:ℝ) = 100 := hcoord
    norm_num at this

/-- Witness for C9 (amended): a two-point equatorial line; negative distance
returns the first coordinate, and a distance beyond the total length
returns the last coordinate. -/
theorem C9_witness :
    LineStringPointAtDistance ⟨"LineString", [((0:ℝ),(0:ℝ)), ((90:ℝ),(0:ℝ))]⟩ (-1)
      = .ok (pointFromLatLon 0 0) ∧
    LineStringPointAtDistance ⟨"LineString", [((0:ℝ),(0:ℝ)), ((90:ℝ),(0:ℝ))]⟩ 30000
      = .ok (pointFromLatLon 0 90) := by
  constructor
  · exact C9_pointAtDistance_spec.2.1 "LineString" (0,0) (90,0) [] (-1) (by norm_num)
  · have htot : segmentsLengthKm [((0:ℝ),(0:ℝ)), ((90:ℝ),(0:ℝ))] < 30000 := by
      show GreatCircleDistance 0 0 0 90 + 0 < 30000
      have hpi4 : Real.pi < 3.1416 := Real.pi_lt_d4
      have hpi := Real.pi_pos
      have h90 : toRadians 90 = π/2 := by rw [toRadians]; ring
      have h0 : toRadians 0 = 0 := by rw [toRadians]; ring
      have hs4 : (0:ℝ) < Real.sin (π/4) :=
        Real.sin_pos_of_pos_of_lt_pi (by positivity) (by nlinarith)
      have hc4 : (0:ℝ) < Real.cos (π/4) :=
        Real.cos_pos_of_mem_Ioo ⟨by nlinarith, by nlinarith⟩
      have hmain : GreatCircleDistance 0 0 0 90 = EarthRadiusKm * (2 * (π/4)) := by
        rw [GreatCircleDistance]
        rw [show (0:ℝ) - 0 = 0 by norm_num, show (90:ℝ) - 0 = 90 by norm_num]
        rw [h90, h0]
        rw [show (0:ℝ)/2 = 0 by norm_num, show π/2/2 = π/4 by ring, Real.sin_zero]
        have hA : (0:ℝ) * 0 + Real.cos 0 * Real.cos 0 * Real.sin (π/4) * Real.sin (π/4) =
            Real.sin (π/4) * Real.sin (π/4) := by
          rw [Real.cos_zero]
          ring
        rw [hA]
        rw [Real.sqrt_mul_self hs4.le]
        have hone : 1 - Real.sin (π/4) * Real.sin (π/4) = Real.cos (π/4) * Real.cos (π/4) := by
          nlinarith [Real.sin_sq_add_cos_sq (π/4)]
        rw [hone, Real.sqrt_mul_self hc4.le]
        rw [atan2_cos_sin (by nlinarith) (by nlinarith)]
      rw [hmain, EarthRadiusKm]
      nlinarith
    have h := C9_pointAtDistance_spec.2.2.1 "LineString" (0,0) (90,0) [] 30000 (by norm_num)
    rw [h]
    rw [C9_pointAtDistance_spec.2.2.2.2.2 30000 (0,0) [((90:ℝ),(0:ℝ))] htot]
    rfl

/-! ### Claim C1 -/

lemma toRadians_pos {d : ℝ} (h : 0 < d) : 0 < toRadians d := by
  rw [toRadians]
  positivity

lemma toRadians_nonneg {d : ℝ} (h : 0 ≤ d) : 0 ≤ toRadians d := by
  rw [toRadians]
  positivity

/-- `GreatCircleDistance` equals Earth radius times `angularDistanceRad`. -/
lemma GreatCircleDistance_eq_angular (lat1 lon1 lat2 lon2 : ℝ) :
    GreatCircleDistance lat1 lon1 lat2 lon2 =
      EarthRadiusKm * angularDistanceRad lat1 lon1 lat2 lon2 := by
  rw [GreatCircleDistance, angularDistanceRad]
  have h : toRadians (lat2 - lat1) = toRadians lat2 - toRadians lat1 := by
    rw [toRadians, toRadians, toRadians]
    ring
  rw [h]

/-- Angular distance between two equatorial points separated by an
eastward longitude difference of at most 180 degrees. -/
lemma angular_equator (lon1 lon2 : ℝ) (h0 : 0 ≤ lon2 - lon1) (h1 : lon2 - lon1 ≤ 180) :
    angularDistanceRad 0 lon1 0 lon2 = toRadians (lon2 - lon1) := by
  rw [angularDistanceRad]
  have h00 : toRadians 0 = 0 := by rw [toRadians]; ring
  rw [h00]
  have hm0 : 0 ≤ toRadians (lon2 - lon1) / 2 := by
    have := toRadians_nonneg h0
    linarith
  have hm1 : toRadians (lon2 - lon1) / 2 ≤ π / 2 := by
    have := toRadians_le_pi h1
    linarith
  have hs : 0 ≤ Real.sin (toRadians (lon2 - lon1) / 2) :=
    Real.sin_nonneg_of_nonneg_of_le_pi hm0 (by linarith [Real.pi_pos])
  have hc : 0 ≤ Real.cos (toRadians (lon2 - lon1) / 2) :=
    Real.cos_nonneg_of_mem_Icc ⟨by linarith [Real.pi_pos], hm1⟩
  have hz : ((0:ℝ) - 0) / 2 = 0 := by norm_num
  rw [hz, Real.sin_zero, Real.cos_zero]
  have hA : (0:ℝ) * 0 + 1 * 1 * Real.sin (toRadians (lon2 - lon1) / 2) *
      Real.sin (toRadians (lon2 - lon1) / 2) =
      Real.sin (toRadians (lon2 - lon1) / 2) * Real.sin (toRadians (lon2 - lon1) / 2) := by
    ring
  rw [hA, Real.sqrt_mul_self hs]
  have hone : 1 - Real.sin (toRadians (lon2 - lon1) / 2) * Real.sin (toRadians (lon2 - lon1) / 2) =
      Real.cos (toRadians (lon2 - lon1) / 2) * Real.cos (toRadians (lon2 - lon1) / 2) := by
    nlinarith [Real.sin_sq_add_cos_sq (toRadians (lon2 - lon1) / 2)]
  rw [hone, Real.sqrt_mul_self hc]
  rw [atan2_cos_sin (by linarith [Real.pi_pos]) (by linarith [Real.pi_pos])]
  ring

/-- Initial bearing between equatorial points going strictly east (less
than 180 degrees) is pi/2. -/
lemma bearing_equator (lon1 lon2 : ℝ) (h0 : 0 < lon2 - lon1) (h1 : lon2 - lon1 < 180) :
    initialBearingRad 0 lon1 0 lon2 = π / 2 := by
  rw [initialBearingRad]
  have h00 : toRadians 0 = 0 := by rw [toRadians]; ring
  rw [h00]
  rw [Real.sin_zero, Real.cos_zero]
  have hs : 0 < Real.sin (toRadians (lon2 - lon1)) :=
    Real.sin_pos_of_pos_of_lt_pi (toRadians_pos h0) (toRadians_lt_pi h1)
  have hA : Real.sin (toRadians (lon2 - lon1)) * 1 = Real.sin (toRadians (lon2 - lon1)) := by
    ring
  have hB : (1:ℝ) * 0 - 0 * 1 * Real.cos (toRadians (lon2 - lon1)) = 0 := by ring
  rw [hA, hB]
  have hy : Real.sin (toRadians (lon2 - lon1)) =
      Real.sin (toRadians (lon2 - lon1)) * Real.sin (π/2) := by
    rw [Real.sin_pi_div_two]
    ring
  have hx : (0:ℝ) = Real.sin (toRadians (lon2 - lon1)) * Real.cos (π/2) := by
    rw [Real.cos_pi_div_two]
    ring
  rw [hy]
  rw [hx]
  exact atan2_polar hs (by linarith [Real.pi_pos]) (by linarith [Real.pi_pos])

/-- Unclamped projection of the equatorial point at lon 60 onto the
infinite great circle through (0,0)-(0,1): zero cross-track, along-track 60
degrees of arc. -/
lemma project_eq_example :
    (GreatCircleProject 0 0 0 1 0 60).2.2.1 = 0 ∧
    (GreatCircleProject 0 0 0 1 0 60).2.2.2 = atan2 (Real.sin (toRadians 60))
      (Real.cos (toRadians 60)) * EarthRadiusKm := by
  have h1 : angularDistanceRad 0 0 0 1 = toRadians 1 := by
    have h := angular_equator 0 1 (by norm_num) (by norm_num)
    rw [show (1:ℝ) - 0 = 1 by norm_num] at h
    exact h
  have h60 : angularDistanceRad 0 0 0 60 = toRadians 60 := by
    have h := angular_equator 0 60 (by norm_num) (by norm_num)
    rw [show (60:ℝ) - 0 = 60 by norm_num] at h
    exact h
  have hb1 : initialBearingRad 0 0 0 1 = π/2 := by
    have h := bearing_equator 0 1 (by norm_num) (by norm_num)
    exact h
  have hb60 : initialBearingRad 0 0 0 60 = π/2 := by
    have h := bearing_equator 0 60 (by norm_num) (by norm_num)
    exact h
  have hne : angularDistanceRad 0 0 0 1 ≠ 0 := by
    rw [h1]
    exact ne_of_gt (toRadians_pos one_pos)
  constructor
  · rw [GreatCircleProject, if_neg hne]
    show Real.arcsin (Real.sin (angularDistanceRad 0 0 0 60) *
      Real.sin (initialBearingRad 0 0 0 60 - initialBearingRad 0 0 0 1)) * EarthRadiusKm = 0
    rw [hb60, hb1, sub_self, Real.sin_zero, mul_zero, Real.arcsin_zero, zero_mul]
  · rw [GreatCircleProject, if_neg hne]
    show atan2 (Real.sin (angularDistanceRad 0 0 0 60) *
        Real.cos (initialBearingRad 0 0 0 60 - initialBearingRad 0 0 0 1))
        (Real.cos (angularDistanceRad 0 0 0 60)) * EarthRadiusKm = _
    rw [hb60, hb1, sub_self, Real.cos_zero, mul_one, h60]

/-- The segment-clamped projection snaps to the far endpoint for the same
configuration: cross-track becomes the great-circle distance to (0,1). -/
lemma projseg_eq_example :
    (GreatCircleProjectToSegment 0 0 0 1 0 60).2.2.1 = GreatCircleDistance 0 1 0 60 := by
  have hpi := Real.pi_pos
  have h60pos : 0 < toRadians 60 := toRadians_pos (by norm_num)
  have hR : (0:ℝ) < EarthRadiusKm := by rw [EarthRadiusKm]; norm_num
  have hat : atan2 (Real.sin (toRadians 60)) (Real.cos (toRadians 60)) = toRadians 60 := by
    refine atan2_cos_sin ?_ (toRadians_le_pi (by norm_num))
    linarith
  have h1 : angularDistanceRad 0 0 0 1 = toRadians 1 := by
    have h := angular_equator 0 1 (by norm_num) (by norm_num)
    rw [show (1:ℝ) - 0 = 1 by norm_num] at h
    exact h
  have htot : GreatCircleDistance 0 0 0 1 = EarthRadiusKm * toRadians 1 := by
    rw [GreatCircleDistance_eq_angular, h1]
  have hlt : toRadians 1 < toRadians 60 := by
    rw [toRadians, toRadians]
    nlinarith
  rw [GreatCircleProjectToSegment]
  rw [project_eq_example.2, hat]
  rw [if_neg (by push_neg; positivity)]
  rw [if_pos (by rw [htot]; nlinarith)]

/-- C1 (amended): `LinePointDistance` errors on fewer than 2 coordinates,
and otherwise returns the minimum over consecutive segments of the absolute
cross-track distance of the segment-CLAMPED projection
`GreatCircleProjectToSegment` (which snaps to the nearer endpoint when the
perpendicular falls outside the segment), not of the unclamped projection
as the spec's section 4.4 states. -/
theorem C1_linePointDistance_clamped_min :
    (∀ (line : LineString) (p : Point), line.coordinates.length < 2 →
      LinePointDistance line p = .error "linestring must have at least 2 coordinates") ∧
    (∀ (t : String) (c0 c1 : Position) (rest : List Position) (p : Point),
      ∃ m, LinePointDistance ⟨t, c0 :: c1 :: rest⟩ p = .ok m ∧
        m ∈ segmentCrossDists p.coordinates.2 p.coordinates.1 c0 (c1 :: rest) ∧
        ∀ d ∈ segmentCrossDists p.coordinates.2 p.coordinates.1 c0 (c1 :: rest), m ≤ d) := by
  have hfold_some : ∀ (ds : List ℝ) (d : ℝ), goMinFold (some d) ds = some (ds.foldl min d) := by
    intro ds
    induction ds with
    | nil => intro d; rfl
    | cons e ds ih =>
      intro d
      show goMinFold (if e < d then some e else some d) ds = _
      rcases lt_or_le e d with h | h
      · rw [if_pos h, ih, List.foldl_cons, min_eq_right h.le]
      · rw [if_neg (not_lt.mpr h), ih, List.foldl_cons, min_eq_left h]
  have hmem : ∀ (ds : List ℝ) (d : ℝ), ds.foldl min d ∈ d :: ds := by
    intro ds
    induction ds with
    | nil => intro d; simp
    | cons e ds ih =>
      intro d
      rw [List.foldl_cons]
      rcases List.mem_cons.mp (ih (min d e)) with h | h
      · rcases min_choice d e with hc | hc <;> rw [h, hc] <;> simp
      · simp [h]
  have hle_init : ∀ (ds : List ℝ) (d : ℝ), ds.foldl min d ≤ d := by
    intro ds
    induction ds with
    | nil => intro d; exact le_refl d
    | cons e ds ih =>
      intro d
      rw [List.foldl_cons]
      exact le_trans (ih (min d e)) (min_le_left d e)
  have hle : ∀ (ds : List ℝ) (d x : ℝ), x ∈ d :: ds → ds.foldl min d ≤ x := by
    intro ds
    induction ds with
    | nil =>
      intro d x hx
      rw [List.mem_singleton.mp hx]
      exact le_refl d
    | cons e ds ih =>
      intro d x hx
      rw [List.foldl_cons]
      rcases List.mem_cons.mp hx with h | h
      · rw [h]
        exact le_trans (hle_init ds (min d e)) (min_le_left d e)
      · rcases List.mem_cons.mp h with h2 | h2
        · rw [h2]
          exact le_trans (hle_init ds (min d e)) (min_le_right d e)
        · exact ih (min d e) x (List.mem_cons_of_mem _ h2)
  constructor
  · intro line p hlen
    rcases hco : line.coordinates with _ | ⟨c0, _ | ⟨c1, rest⟩⟩
    · rw [LinePointDistance, hco]
    · rw [LinePointDistance, hco]
    · rw [hco] at hlen
      simp at hlen
      omega
  · intro t c0 c1 rest p
    refine ⟨(segmentCrossDists p.coordinates.2 p.coordinates.1 c1 rest).foldl min
      |(GreatCircleProjectToSegment c0.2 c0.1 c1.2 c1.1
        p.coordinates.2 p.coordinates.1).2.2.1|, ?_, ?_, ?_⟩
    · show (match goMinFold none (segmentCrossDists p.coordinates.2 p.coordinates.1 c0
        (c1 :: rest)) with
        | some m => Except.ok m
        | none => Except.ok 0) = _
      have hunfold : segmentCrossDists p.coordinates.2 p.coordinates.1 c0 (c1 :: rest) =
          |(GreatCircleProjectToSegment c0.2 c0.1 c1.2 c1.1
            p.coordinates.2 p.coordinates.1).2.2.1| ::
          segmentCrossDists p.coordinates.2 p.coordinates.1 c1 rest := rfl
      rw [hunfold]
      show (match goMinFold (some _) _ with
        | some m => Except.ok m
        | none => Except.ok 0) = _
      rw [hfold_some]
    · exact hmem _ _
    · exact hle _ _

/-- C1 counterexample: for the short equatorial segment (0,0)-(1,0) and the
point (60,0) on the same great circle, the unclamped perpendicular distance
is 0, but `LinePointDistance` (which uses the segment-clamped projection)
returns the distance to the endpoint (1,0), which is positive: the claim's
unclamped description does not match the code. -/
theorem C1_counterexample :
    LinePointDistance (NewLineString [(0,0),(1,0)]) (NewPoint 60 0) =
      .ok (GreatCircleDistance 0 1 0 60) ∧
    specLinePointDistanceUnclamped (NewLineString [(0,0),(1,0)]) (NewPoint 60 0) = .ok 0 ∧
    GreatCircleDistance 0 1 0 60 ≠ 0 := by
  have h59 : GreatCircleDistance 0 1 0 60 = EarthRadiusKm * toRadians 59 := by
    rw [GreatCircleDistance_eq_angular]
    have h := angular_equator 1 60 (by norm_num) (by norm_num)
    rw [show (60:ℝ) - 1 = 59 by norm_num] at h
    rw [h]
  have hpos : 0 < GreatCircleDistance 0 1 0 60 := by
    rw [h59, EarthRadiusKm]
    have := toRadians_pos (show (0:ℝ) < 59 by norm_num)
    nlinarith
  refine ⟨?_, ?_, ne_of_gt hpos⟩
  · have hstep : LinePointDistance (NewLineString [(0,0),(1,0)]) (NewPoint 60 0) =
        .ok |(GreatCircleProjectToSegment 0 0 0 1 0 60).2.2.1| := rfl
    rw [hstep, projseg_eq_example, abs_of_nonneg (GreatCircleDistance_nonneg 0 1 0 60)]
  · have hstep : specLinePointDistanceUnclamped (NewLineString [(0,0),(1,0)]) (NewPoint 60 0) =
        .ok |(GreatCircleProject 0 0 0 1 0 60).2.2.1| := rfl
    rw [hstep, project_eq_example.1, abs_zero]

/-- Witness for C1 (amended): a one-point line errors; for the two-point
equatorial line and the probe point the minimum over segments exists and
bounds every per-segment clamped cross-track distance. -/
theorem C1_witness :
    LinePointDistance ⟨"LineString", [((0:ℝ),(0:ℝ))]⟩ (NewPoint 0 0) =
      .error "linestring must have at least 2 coordinates" ∧
    ∃ m, LinePointDistance ⟨"LineString", [((0:ℝ),(0:ℝ)), ((1:ℝ),(0:ℝ))]⟩ (NewPoint 60 0) =
        .ok m ∧
      m ∈ segmentCrossDists ((NewPoint 60 0).coordinates.2) ((NewPoint 60 0).coordinates.1)
        (0,0) [(1,0)] ∧
      ∀ d ∈ segmentCrossDists ((NewPoint 60 0).coordinates.2) ((NewPoint 60 0).coordinates.1)
        (0,0) [(1,0)], m ≤ d :=
  ⟨C1_linePointDistance_clamped_min.1 ⟨"LineString", [((0:ℝ),(0:ℝ))]⟩ (NewPoint 0 0)
    (by norm_num),
   C1_linePointDistance_clamped_min.2 "LineString" (0,0) (1,0) [] (NewPoint 60 0)⟩

/-! ### Claim C5: great-circle GeoJSON generation and antimeridian split -/

/-- Spherical-interpolation identity for the cosine component. -/
lemma slerp_cos (u s lam : ℝ) :
    Real.sin (2*u - s) * Real.cos lam + Real.sin s * Real.cos (lam + 2*u) =
      Real.sin (2*u) * Real.cos (lam + s) := by
  rw [Real.sin_sub, Real.cos_add, Real.cos_add]
  ring

lemma slerp_sin (u s lam : ℝ) :
    Real.sin (2*u - s) * Real.sin lam + Real.sin s * Real.sin (lam + 2*u) =
      Real.sin (2*u) * Real.sin (lam + s) := by
  rw [Real.sin_sub, Real.sin_add, Real.sin_add]
  ring

lemma gcip_equator_179 (f θw : ℝ)
    (hθ : θw = toRadians (179 + 2*f) ∨ θw = toRadians (179 + 2*f) - 2*π)
    (hgt : -π < θw) (hle : θw ≤ π) :
    GreatCircleIntermediatePoint 0 179 0 (-179) f = (0, normalizeLongitude (toDegrees θw)) := by
  have hpi := Real.pi_pos
  have h179 : toRadians 179 = 179*(π/180) := by rw [toRadians]; ring
  have hm179 : toRadians (-179) = -(179*(π/180)) := by rw [toRadians]; ring
  have h0 : toRadians 0 = 0 := by rw [toRadians]; ring
  have hs : (0:ℝ) < Real.sin (π/180) :=
    Real.sin_pos_of_pos_of_lt_pi (by positivity) (by nlinarith)
  have hc : (0:ℝ) < Real.cos (π/180) :=
    Real.cos_pos_of_mem_Ioo ⟨by nlinarith, by nlinarith⟩
  have hs2 : (0:ℝ) < Real.sin (2*(π/180)) :=
    Real.sin_pos_of_pos_of_lt_pi (by positivity) (by nlinarith)
  rw [GreatCircleIntermediatePoint, h179, hm179, h0]
  rw [show ((0:ℝ) - 0)/2 = 0 from by norm_num]
  rw [Real.sin_zero, Real.cos_zero]
  rw [show (-(179*(π/180)) - 179*(π/180))/2 = -(179*(π/180)) from by ring]
  rw [Real.sin_neg]
  rw [show (0:ℝ)*0 + 1*1*(-Real.sin (179*(π/180)))*(-Real.sin (179*(π/180))) =
      Real.sin (π/180) * Real.sin (π/180) from by
    rw [show (179:ℝ)*(π/180) = π - π/180 from by ring, Real.sin_pi_sub]; ring]
  rw [Real.sqrt_mul_self hs.le]
  rw [show 1 - Real.sin (π/180) * Real.sin (π/180) = Real.cos (π/180) * Real.cos (π/180)
      from by nlinarith [Real.sin_sq_add_cos_sq (π/180)]]
  rw [Real.sqrt_mul_self hc.le]
  rw [atan2_cos_sin (by nlinarith) (by nlinarith)]
  rw [if_neg (by positivity)]
  dsimp only
  have hX : Real.sin ((1 - f) * (2 * (π / 180))) / Real.sin (2 * (π / 180)) * 1 *
        Real.cos (179 * (π / 180)) +
      Real.sin (f * (2 * (π / 180))) / Real.sin (2 * (π / 180)) * 1 *
        Real.cos (-(179 * (π / 180))) =
      Real.cos (179 * (π / 180) + f * (2 * (π / 180))) := by
    rw [mul_one, mul_one]
    rw [show -(179*(π/180)) = 179*(π/180) + 2*(π/180) - 2*π from by ring,
      Real.cos_sub_two_pi]
    rw [show (1-f)*(2*(π/180)) = 2*(π/180) - f*(2*(π/180)) from by ring]
    rw [div_mul_eq_mul_div, div_mul_eq_mul_div, div_add_div_same]
    rw [slerp_cos (π/180) (f*(2*(π/180))) (179*(π/180))]
    rw [mul_comm, mul_div_assoc, div_self hs2.ne', mul_one]
  have hsin2 : Real.sin (179*(π/180) + 2*(π/180)) = -Real.sin (179*(π/180)) := by
    rw [show 179*(π/180) + 2*(π/180) = -(179*(π/180)) + 2*π from by ring,
      Real.sin_add_two_pi, Real.sin_neg]
  have hY : Real.sin ((1 - f) * (2 * (π / 180))) / Real.sin (2 * (π / 180)) * 1 *
        Real.sin (179 * (π / 180)) +
      Real.sin (f * (2 * (π / 180))) / Real.sin (2 * (π / 180)) * 1 *
        -Real.sin (179 * (π / 180)) =
      Real.sin (179 * (π / 180) + f * (2 * (π / 180))) := by
    rw [mul_one, mul_one]
    rw [← hsin2, show (1-f)*(2*(π/180)) = 2*(π/180) - f*(2*(π/180)) from by ring]
    rw [div_mul_eq_mul_div, div_mul_eq_mul_div, div_add_div_same]
    rw [slerp_sin (π/180) (f*(2*(π/180))) (179*(π/180))]
    rw [mul_comm, mul_div_assoc, div_self hs2.ne', mul_one]
  rw [hX, hY, mul_zero, mul_zero, add_zero]
  rw [show Real.cos (179*(π/180) + f*(2*(π/180))) * Real.cos (179*(π/180) + f*(2*(π/180))) +
      Real.sin (179*(π/180) + f*(2*(π/180))) * Real.sin (179*(π/180) + f*(2*(π/180))) = 1
      from by nlinarith [Real.sin_sq_add_cos_sq (179*(π/180) + f*(2*(π/180)))]]
  rw [Real.sqrt_one]
  have hat0 : atan2 0 1 = 0 := by
    have h := atan2_cos_sin (show -π < 0 from by linarith) hpi.le
    rw [Real.sin_zero, Real.cos_zero] at h
    exact h
  rw [hat0, show toDegrees 0 = 0 from by rw [toDegrees]; ring]
  rcases hθ with h | h
  · rw [show 179*(π/180) + f*(2*(π/180)) = θw from by rw [h, toRadians]; ring]
    rw [atan2_cos_sin hgt hle]
  · rw [show 179*(π/180) + f*(2*(π/180)) = θw + 2*π from by rw [h, toRadians]; ring]
    rw [Real.sin_add_two_pi, Real.cos_add_two_pi]
    rw [atan2_cos_sin hgt hle]

lemma gcip5_0 : GreatCircleIntermediatePoint 0 179 0 (-179) 0 = (0, 179) := by
  have h := gcip_equator_179 0 (toRadians 179)
    (Or.inl (by rw [show (179:ℝ) + 2*0 = 179 from by norm_num]))
    (neg_pi_lt_toRadians (by norm_num)) (toRadians_le_pi (by norm_num))
  rw [h, toDegrees_toRadians, normalizeLongitude_of_mem (by norm_num) (by norm_num)]

lemma gcip5_1 : GreatCircleIntermediatePoint 0 179 0 (-179) (1/4) = (0, 359/2) := by
  have h := gcip_equator_179 (1/4) (toRadians (359/2))
    (Or.inl (by rw [show (179:ℝ) + 2*(1/4) = 359/2 from by norm_num]))
    (neg_pi_lt_toRadians (by norm_num)) (toRadians_le_pi (by norm_num))
  rw [h, toDegrees_toRadians, normalizeLongitude_of_mem (by norm_num) (by norm_num)]

lemma gcip5_2 : GreatCircleIntermediatePoint 0 179 0 (-179) (1/2) = (0, -180) := by
  have h := gcip_equator_179 (1/2) (toRadians 180)
    (Or.inl (by rw [show (179:ℝ) + 2*(1/2) = 180 from by norm_num]))
    (neg_pi_lt_toRadians (by norm_num)) (toRadians_le_pi (by norm_num))
  have h180 : toDegrees (toRadians 180) = 180 := toDegrees_toRadians 180
  rw [h, h180, normalizeLongitude_180]

lemma gcip5_3 : GreatCircleIntermediatePoint 0 179 0 (-179) (3/4) = (0, -(359/2)) := by
  have hw : toRadians (-(359/2)) = toRadians (179 + 2*(3/4)) - 2*π := by
    rw [toRadians, toRadians]; ring
  have h := gcip_equator_179 (3/4) (toRadians (-(359/2))) (Or.inr hw)
    (neg_pi_lt_toRadians (by norm_num)) (toRadians_le_pi (by norm_num))
  rw [h, toDegrees_toRadians, normalizeLongitude_of_mem (by norm_num) (by norm_num)]

lemma gcip5_4 : GreatCircleIntermediatePoint 0 179 0 (-179) 1 = (0, -179) := by
  have hw : toRadians (-179) = toRadians (179 + 2*1) - 2*π := by
    rw [toRadians, toRadians]; ring
  have h := gcip_equator_179 1 (toRadians (-179)) (Or.inr hw)
    (neg_pi_lt_toRadians (by norm_num)) (toRadians_le_pi (by norm_num))
  rw [h, toDegrees_toRadians, normalizeLongitude_of_mem (by norm_num) (by norm_num)]

lemma abs_not_gt_180 (x y : ℝ) (h1 : x - y ≤ 180) (h2 : y - x ≤ 180) : ¬(|x - y| > 180) := by
  rw [gt_iff_lt, not_lt, abs_le]
  constructor <;> linarith

lemma abs_gt_180_neg (x y : ℝ) (h : x - y < -180) : |x - y| > 180 := by
  rw [gt_iff_lt, abs_sub_comm, abs_of_pos (by linarith)]
  linarith

lemma splitScan_flatten (rest : List Position) :
    ∀ (lines : List (List Position)) (current : List Position) (prev : Position),
      (splitScan lines current prev rest).flatten = lines.flatten ++ current ++ rest := by
  induction rest with
  | nil =>
    intro lines current prev
    show (lines ++ [current]).flatten = lines.flatten ++ current ++ []
    simp
  | cons curr rest ih =>
    intro lines current prev
    show (if |curr.1 - prev.1| > 180 then splitScan (lines ++ [current]) [curr] curr rest
      else splitScan lines (current ++ [curr]) curr rest).flatten = _
    split
    · rw [ih]
      simp
    · rw [ih]
      simp

lemma splitAntimeridian_flatten (c0 : Position) (rest : List Position) :
    (splitAntimeridian (c0 :: rest)).flatten = c0 :: rest := by
  show (splitScan [] [c0] c0 rest).flatten = c0 :: rest
  rw [splitScan_flatten]
  simp

lemma split5 : splitAntimeridian
    [((179:ℝ),(0:ℝ)), (359/2,0), (-180,0), (-(359/2),0), (-179,0)] =
    [[(179,0),(359/2,0)], [(-180,0),(-(359/2),0),(-179,0)]] := by
  have c1 : ¬(|(359:ℝ)/2 - 179| > 180) := abs_not_gt_180 _ _ (by norm_num) (by norm_num)
  have c2 : |(-180:ℝ) - 359/2| > 180 := abs_gt_180_neg _ _ (by norm_num)
  have c3 : ¬(|(-(359/2):ℝ) - (-180)| > 180) := abs_not_gt_180 _ _ (by norm_num) (by norm_num)
  have c4 : ¬(|(-179:ℝ) - (-(359/2))| > 180) := abs_not_gt_180 _ _ (by norm_num) (by norm_num)
  simp only [splitAntimeridian, splitScan]
  rw [if_neg c1, if_pos c2, if_neg c3, if_neg c4]
  simp

lemma hne5 : (NewPoint 179 0).coordinates ≠ (NewPoint (-179) 0).coordinates := by
  norm_num [NewPoint, Prod.ext_iff]

lemma gcc5 : greatCircleCoords (NewPoint 179 0) (NewPoint (-179) 0) 5 =
    [((179:ℝ),(0:ℝ)), (359/2,0), (-180,0), (-(359/2),0), (-179,0)] := by
  rw [greatCircleCoords]
  rw [show (List.range (5:ℤ).toNat) = [0,1,2,3,4] from rfl]
  simp only [List.map_cons, List.map_nil]
  norm_num [NewPoint, positionLatLon, gcip5_0, gcip5_1, gcip5_2, gcip5_3, gcip5_4]

lemma ggj5 : GreatCircleGeoJSON (NewPoint 179 0) (NewPoint (-179) 0) 5 =
    (GeoObj.multiLineString (NewMultiLineString
      [[(179,0),(359/2,0)], [(-180,0),(-(359/2),0),(-179,0)]]), none) := by
  rw [GreatCircleGeoJSON]
  rw [show ((if (5:ℤ) ≤ 0 then 2 else 5) : ℤ) = 5 from by norm_num]
  rw [if_neg hne5]
  rw [gcc5]
  dsimp only
  rw [split5]

/-- C5: `GreatCircleGeoJSON` with npoints ≤ 0 behaves as npoints = 2; with
equal start and end it returns a LineString repeating the start position
npoints times; otherwise it generates npoints evenly-fractioned
great-circle points and scans them, starting a new segment exactly when the
longitude jump between adjacent points exceeds 180 degrees (the segments
concatenate back to the generated points), returning a LineString for one
segment and a MultiLineString for several. Concretely, (179,0) to (-179,0)
with 5 points crosses the antimeridian and yields a two-segment
MultiLineString, and (0,0) to (0,0) with 3 points yields the 3-point
degenerate LineString. -/
theorem C5_greatCircleGeoJSON_spec :
    (∀ (start stop : Point) (n : ℤ), n ≤ 0 →
      GreatCircleGeoJSON start stop n = GreatCircleGeoJSON start stop 2) ∧
    (∀ (start stop : Point) (n : ℤ), 1 ≤ n → start.coordinates = stop.coordinates →
      GreatCircleGeoJSON start stop n =
        (GeoObj.lineString (NewLineString (List.replicate n.toNat start.coordinates)),
          none)) ∧
    (∀ (start stop : Point) (n : ℤ), 1 ≤ n → start.coordinates ≠ stop.coordinates →
      (splitAntimeridian (greatCircleCoords start stop n)).flatten =
        greatCircleCoords start stop n ∧
      (∀ l, splitAntimeridian (greatCircleCoords start stop n) = [l] →
        GreatCircleGeoJSON start stop n = (GeoObj.lineString (NewLineString l), none)) ∧
      (∀ l0 l1 ls, splitAntimeridian (greatCircleCoords start stop n) = l0 :: l1 :: ls →
        GreatCircleGeoJSON start stop n =
          (GeoObj.multiLineString (NewMultiLineString (l0 :: l1 :: ls)), none))) ∧
    GreatCircleGeoJSON (NewPoint 179 0) (NewPoint (-179) 0) 5 =
      (GeoObj.multiLineString (NewMultiLineString
        [[(179,0),(359/2,0)], [(-180,0),(-(359/2),0),(-179,0)]]), none) ∧
    GreatCircleGeoJSON (NewPoint 0 0) (NewPoint 0 0) 3 =
      (GeoObj.lineString (NewLineString [(0,0),(0,0),(0,0)]), none) := by
  refine ⟨?_, ?_, ?_, ggj5, ?_⟩
  · intro start stop n hn
    rw [GreatCircleGeoJSON, GreatCircleGeoJSON]
    rw [if_pos hn]
    rw [show ((if (2:ℤ) ≤ 0 then 2 else 2) : ℤ) = 2 from by norm_num]
  · intro start stop n hn heq
    rw [GreatCircleGeoJSON]
    rw [show ((if n ≤ 0 then 2 else n) : ℤ) = n from if_neg (by omega)]
    rw [if_pos heq]
  · intro start stop n hn hne
    refine ⟨?_, ?_, ?_⟩
    · obtain ⟨m, hm⟩ : ∃ m, n.toNat = m + 1 := ⟨n.toNat - 1, by omega⟩
      rw [greatCircleCoords, hm, List.range_succ_eq_map, List.map_cons]
      exact splitAntimeridian_flatten _ _
    · intro l hl
      rw [GreatCircleGeoJSON]
      rw [show ((if n ≤ 0 then 2 else n) : ℤ) = n from if_neg (by omega)]
      rw [if_neg hne]
      dsimp only
      rw [hl]
    · intro l0 l1 ls hl
      rw [GreatCircleGeoJSON]
      rw [show ((if n ≤ 0 then 2 else n) : ℤ) = n from if_neg (by omega)]
      rw [if_neg hne]
      dsimp only
      rw [hl]
  · rw [GreatCircleGeoJSON]
    rw [show ((if (3:ℤ) ≤ 0 then 2 else 3) : ℤ) = 3 from by norm_num]
    rw [if_pos rfl]
    rfl

/-- Witness for C5: the hypothesis-bearing clauses applied at concrete
inputs: a negative npoints call equals the npoints = 2 call, equal
endpoints give the replicated line, and the antimeridian split of the
concrete 5-point route concatenates back to the generated points. -/
theorem C5_witness :
    GreatCircleGeoJSON (NewPoint 10 20) (NewPoint 30 40) (-1) =
      GreatCircleGeoJSON (NewPoint 10 20) (NewPoint 30 40) 2 ∧
    GreatCircleGeoJSON (NewPoint 7 7) (NewPoint 7 7) 4 =
      (GeoObj.lineString (NewLineString
        (List.replicate (4:ℤ).toNat (NewPoint 7 7).coordinates)), none) ∧
    (splitAntimeridian (greatCircleCoords (NewPoint 179 0) (NewPoint (-179) 0) 5)).flatten =
      greatCircleCoords (NewPoint 179 0) (NewPoint (-179) 0) 5 :=
  ⟨C5_greatCircleGeoJSON_spec.1 (NewPoint 10 20) (NewPoint 30 40) (-1) (by norm_num),
   C5_greatCircleGeoJSON_spec.2.1 (NewPoint 7 7) (NewPoint 7 7) 4 (by norm_num) rfl,
   (C5_greatCircleGeoJSON_spec.2.2.1 (NewPoint 179 0) (NewPoint (-179) 0) 5 (by norm_num)
     (by norm_num [NewPoint, Prod.ext_iff])).1⟩

/-! ### Claim C7: great-circle vs rhumb-line distance -/

/-- Monomial interval bounds for the counterexample scale. -/
lemma c7_monomials (v : ℝ) (hl : (3141592:ℝ)/4000000000000000000 ≤ v)
    (hu : v ≤ (3141593:ℝ)/4000000000000000000) :
    (616:ℝ)/10^27 ≤ v^2 ∧ v^2 ≤ 617/10^27 ∧
    (484:ℝ)/10^39 ≤ v^3 ∧ v^3 ≤ 485/10^39 ∧
    (380:ℝ)/10^51 ≤ v^4 ∧ v^4 ≤ 381/10^51 ∧
    v^5 ≤ 299/10^63 ∧ v^6 ≤ 235/10^75 ∧
    (184:ℝ)/10^87 ≤ v^7 ∧ v^8 ≤ 145/10^99 := by
  have h0 : (0:ℝ) ≤ v := le_trans (by norm_num) hl
  have hc0 : (0:ℝ) ≤ (3141592:ℝ)/4000000000000000000 := by norm_num
  refine ⟨?_, ?_, ?_, ?_, ?_, ?_, ?_, ?_, ?_, ?_⟩
  · calc (616:ℝ)/10^27 ≤ ((3141592:ℝ)/4000000000000000000)^2 := by norm_num
      _ ≤ v^2 := pow_le_pow_left hc0 hl 2
  · calc v^2 ≤ ((3141593:ℝ)/4000000000000000000)^2 := pow_le_pow_left h0 hu 2
      _ ≤ 617/10^27 := by norm_num
  · calc (484:ℝ)/10^39 ≤ ((3141592:ℝ)/4000000000000000000)^3 := by norm_num
      _ ≤ v^3 := pow_le_pow_left hc0 hl 3
  · calc v^3 ≤ ((3141593:ℝ)/4000000000000000000)^3 := pow_le_pow_left h0 hu 3
      _ ≤ 485/10^39 := by norm_num
  · calc (380:ℝ)/10^51 ≤ ((3141592:ℝ)/4000000000000000000)^4 := by norm_num
      _ ≤ v^4 := pow_le_pow_left hc0 hl 4
  · calc v^4 ≤ ((3141593:ℝ)/4000000000000000000)^4 := pow_le_pow_left h0 hu 4
      _ ≤ 381/10^51 := by norm_num
  · calc v^5 ≤ ((3141593:ℝ)/4000000000000000000)^5 := pow_le_pow_left h0 hu 5
      _ ≤ 299/10^63 := by norm_num
  · calc v^6 ≤ ((3141593:ℝ)/4000000000000000000)^6 := pow_le_pow_left h0 hu 6
      _ ≤ 235/10^75 := by norm_num
  · calc (184:ℝ)/10^87 ≤ ((3141592:ℝ)/4000000000000000000)^7 := by norm_num
      _ ≤ v^7 := pow_le_pow_left hc0 hl 7
  · calc v^8 ≤ ((3141593:ℝ)/4000000000000000000)^8 := pow_le_pow_left h0 hu 8
      _ ≤ 145/10^99 := by norm_num

/-- Taylor certificate for the haversine-vs-rhumb comparison at the
counterexample configuration: polynomial inequality in the scale v. -/
lemma c7_poly (v : ℝ) (hl : (3141592:ℝ)/4000000000000000000 ≤ v)
    (hu : v ≤ (3141593:ℝ)/4000000000000000000) :
    v^2*13230000000001/4 - (v^2*13230000000001)^2/48 + (v^2*13230000000001)^3/2304
      + (5*3637307/1536)*(v^2*13230000000001)^2*v + (25/2359296)*(v^2*13230000000001)^4
    < (v/2)^2 - (v/2)^4 + ((3/4)*(1-v^2) + (173/400)*(v - v^3)) *
        ((2100000*v)^2 - (2100000*v)^4/3 - (5/48)*(2100000*v)^5) := by
  obtain ⟨h2l, h2u, h3l, h3u, h4l, h4u, h5u, h6u, h7l, h8u⟩ := c7_monomials v hl hu
  nlinarith [h3l, h4u, h5u, h6u, h7l, h8u]

/-- Two-sided cubic Taylor bounds for sin on [0, 1]. -/
lemma sin_taylor_bounds {x : ℝ} (h0 : 0 ≤ x) (h1 : x ≤ 1) :
    x - x^3/6 - x^4*(5/96) ≤ Real.sin x ∧ Real.sin x ≤ x - x^3/6 + x^4*(5/96) := by
  have hb := Real.sin_bound (x := x) (by rw [abs_of_nonneg h0]; exact h1)
  rw [abs_of_nonneg h0] at hb
  have h2 := abs_le.mp hb
  constructor <;> linarith [h2.1, h2.2]

/-- Two-sided quadratic Taylor bounds for cos on [0, 1]. -/
lemma cos_taylor_bounds {x : ℝ} (h0 : 0 ≤ x) (h1 : x ≤ 1) :
    1 - x^2/2 - x^4*(5/96) ≤ Real.cos x ∧ Real.cos x ≤ 1 - x^2/2 + x^4*(5/96) := by
  have hb := Real.cos_bound (x := x) (by rw [abs_of_nonneg h0]; exact h1)
  rw [abs_of_nonneg h0] at hb
  have h2 := abs_le.mp hb
  constructor <;> linarith [h2.1, h2.2]

/-- Lower bound for the squared sine from the cubic Taylor minorant. -/
lemma sin_sq_lower {x : ℝ} (h0 : 0 ≤ x) (h1 : x ≤ 1)
    (hA : 0 ≤ x - x^3/6 - x^4*(5/96)) :
    x^2 - x^4/3 - (5/48)*x^5 ≤ Real.sin x * Real.sin x := by
  have hs := sin_taylor_bounds h0 h1
  have h2 := mul_self_le_mul_self hA hs.1
  nlinarith [h2, sq_nonneg (x^3/6 + x^4*(5/96))]

set_option maxHeartbeats 1000000 in
/-- At the counterexample scale, the haversine term strictly exceeds the
squared sine of half the rhumb angle, and stays at most one. -/
lemma c7_core (v : ℝ) (hl : (3141592:ℝ)/4000000000000000000 ≤ v)
    (hu : v ≤ (3141593:ℝ)/4000000000000000000) :
    Real.sin (Real.sqrt (v^2*13230000000001)/2) * Real.sin (Real.sqrt (v^2*13230000000001)/2) <
      Real.sin (v/2) * Real.sin (v/2) +
        (3/4 * Real.cos v + Real.sqrt 3/4 * Real.sin v) *
          (Real.sin (2100000*v) * Real.sin (2100000*v)) ∧
    Real.sin (v/2) * Real.sin (v/2) +
        (3/4 * Real.cos v + Real.sqrt 3/4 * Real.sin v) *
          (Real.sin (2100000*v) * Real.sin (2100000*v)) ≤ 1 := by
  have h0 : (0:ℝ) ≤ v := le_trans (by norm_num) hl
  obtain ⟨hv2l, hv2u, hv3l, hv3u, hv4l, hv4u, hv5u, hv6u, hv7l, hv8u⟩ :=
    c7_monomials v hl hu
  have hv2nn : (0:ℝ) ≤ v^2 := sq_nonneg v
  have hv3nn : (0:ℝ) ≤ v^3 := pow_nonneg h0 3
  set d := Real.sqrt (v^2*13230000000001) with hd
  have hdnn : 0 ≤ d := Real.sqrt_nonneg _
  have hd2 : d^2 = v^2*13230000000001 := Real.sq_sqrt (by positivity)
  have hdub : d ≤ 3637307*v := by
    rw [hd]
    rw [show (3637307:ℝ)*v = Real.sqrt ((3637307*v)^2) from
      (Real.sqrt_sq (mul_nonneg (by norm_num) h0)).symm]
    apply Real.sqrt_le_sqrt
    linarith only [hv2nn]
  have hdu : d ≤ 3/1000000 := by linarith only [hdub, hu]
  have hAv2 : (0:ℝ) ≤ v/2 - (v/2)^3/6 - (v/2)^4*(5/96) := by
    linarith only [hl, hv3u, hv4u]
  have hAv : (0:ℝ) ≤ v - v^3/6 - v^4*(5/96) := by
    linarith only [hl, hv3u, hv4u]
  have hAx : (0:ℝ) ≤ 2100000*v - (2100000*v)^3/6 - (2100000*v)^4*(5/96) := by
    linarith only [hl, hv3u, hv4u]
  have hsv2 := sin_taylor_bounds (x := v/2) (by linarith only [h0])
    (by linarith only [hu])
  have hsx  := sin_taylor_bounds (x := 2100000*v) (by linarith only [h0])
    (by linarith only [hu])
  have hsv  := sin_taylor_bounds (x := v) h0 (by linarith only [hu])
  have hcv  := cos_taylor_bounds (x := v) h0 (by linarith only [hu])
  have hsd  := sin_taylor_bounds (x := d/2) (by linarith only [hdnn])
    (by linarith only [hdu])
  have hsv2_sqA : (v/2)^2 - (v/2)^4/3 - (5/48)*(v/2)^5 ≤ Real.sin (v/2) * Real.sin (v/2) :=
    sin_sq_lower (by linarith only [h0]) (by linarith only [hu]) hAv2
  have hsv2_sq : (v/2)^2 - (v/2)^4 ≤ Real.sin (v/2) * Real.sin (v/2) := by
    linarith only [hsv2_sqA, hv4l, hv5u]
  have hsx_sq : (2100000*v)^2 - (2100000*v)^4/3 - (5/48)*(2100000*v)^5 ≤
      Real.sin (2100000*v) * Real.sin (2100000*v) :=
    sin_sq_lower (by linarith only [h0]) (by linarith only [hu]) hAx
  have hs3 : (173/100:ℝ) ≤ Real.sqrt 3 := by
    rw [show (173/100:ℝ) = Real.sqrt ((173/100)^2) from
      (Real.sqrt_sq (by norm_num)).symm]
    exact Real.sqrt_le_sqrt (by norm_num)
  have hs3u : Real.sqrt 3 ≤ 174/100 := by
    rw [show (174/100:ℝ) = Real.sqrt ((174/100)^2) from
      (Real.sqrt_sq (by norm_num)).symm]
    exact Real.sqrt_le_sqrt (by norm_num)
  have hsv_nn : 0 ≤ Real.sin v := by linarith only [hsv.1, hAv]
  have hCl : (3/4)*(1-v^2) + (173/400)*(v - v^3) ≤
      3/4 * Real.cos v + Real.sqrt 3/4 * Real.sin v := by
    have hA : v - v^3 ≤ Real.sin v := by
      linarith only [hsv.1, hv3l, hv4u]
    have h4 := mul_le_mul_of_nonneg_right
      (show (173/400:ℝ) ≤ Real.sqrt 3/4 from by linarith only [hs3]) hsv_nn
    have h2 : (173/400)*(v - v^3) ≤ Real.sqrt 3/4 * Real.sin v := by
      linarith only [hA, h4]
    have h3 : (3/4)*(1-v^2) ≤ 3/4*Real.cos v := by
      linarith only [hcv.1, hv2l, hv4u]
    linarith only [h2, h3]
  have hCl_nn : (0:ℝ) ≤ (3/4)*(1-v^2) + (173/400)*(v - v^3) := by
    linarith only [h0, hv2u, hv3u]
  have hSLx_nn : (0:ℝ) ≤ (2100000*v)^2 - (2100000*v)^4/3 - (5/48)*(2100000*v)^5 := by
    linarith only [hv2l, hv4u, hv5u]
  have hC_nn : (0:ℝ) ≤ 3/4 * Real.cos v + Real.sqrt 3/4 * Real.sin v :=
    le_trans hCl_nn hCl
  have hprod : ((3/4)*(1-v^2) + (173/400)*(v - v^3)) *
      ((2100000*v)^2 - (2100000*v)^4/3 - (5/48)*(2100000*v)^5) ≤
      (3/4 * Real.cos v + Real.sqrt 3/4 * Real.sin v) *
        (Real.sin (2100000*v) * Real.sin (2100000*v)) :=
    mul_le_mul hCl hsx_sq hSLx_nn hC_nn
  have hsd_nn : 0 ≤ Real.sin (d/2) := by
    apply Real.sin_nonneg_of_nonneg_of_le_pi (by linarith only [hdnn])
    linarith only [hdu, Real.pi_gt_three]
  have hsq : Real.sin (d/2) * Real.sin (d/2) ≤
      (d/2 - (d/2)^3/6 + (d/2)^4*(5/96)) * (d/2 - (d/2)^3/6 + (d/2)^4*(5/96)) :=
    mul_self_le_mul_self hsd_nn hsd.2
  have hd4 : d^4 = (v^2*13230000000001)^2 := by
    rw [show d^4 = (d^2)^2 from by ring, hd2]
  have hd5 : d^5 = (v^2*13230000000001)^2*d := by
    rw [show d^5 = (d^2)^2*d from by ring, hd2]
  have hd6 : d^6 = (v^2*13230000000001)^3 := by
    rw [show d^6 = (d^2)^3 from by ring, hd2]
  have hd7 : d^7 = (v^2*13230000000001)^3*d := by
    rw [show d^7 = (d^2)^3*d from by ring, hd2]
  have hd8 : d^8 = (v^2*13230000000001)^4 := by
    rw [show d^8 = (d^2)^4 from by ring, hd2]
  have hUU : (d/2 - (d/2)^3/6 + (d/2)^4*(5/96)) * (d/2 - (d/2)^3/6 + (d/2)^4*(5/96)) ≤
      v^2*13230000000001/4 - (v^2*13230000000001)^2/48 + (v^2*13230000000001)^3/2304
        + (5*3637307/1536)*(v^2*13230000000001)^2*v
        + (25/2359296)*(v^2*13230000000001)^4 := by
    have e1 : (d/2 - (d/2)^3/6 + (d/2)^4*(5/96)) * (d/2 - (d/2)^3/6 + (d/2)^4*(5/96)) =
        d^2/4 - d^4/48 + d^6/2304 + (5/1536)*d^5 - (5/36864)*d^7 + (25/2359296)*d^8 := by
      ring
    rw [e1, hd2, hd4, hd5, hd6, hd7, hd8]
    have t1 : (5/1536)*((v^2*13230000000001)^2*d) ≤
        (5/1536)*((v^2*13230000000001)^2*(3637307*v)) := by
      apply mul_le_mul_of_nonneg_left _ (by norm_num)
      exact mul_le_mul_of_nonneg_left hdub (by positivity)
    have t2 : (0:ℝ) ≤ (5/36864)*((v^2*13230000000001)^3*d) := by positivity
    linarith only [t1, t2]
  have hpoly := c7_poly v hl hu
  constructor
  · calc Real.sin (d/2) * Real.sin (d/2) ≤ _ := hsq
      _ ≤ _ := hUU
      _ < _ := hpoly
      _ ≤ _ := by linarith only [hsv2_sq, hprod]
  · have hsvp : Real.sin (v/2) ≤ v/2 := by
      linarith only [hsv2.2, hv3l, hv4u]
    have hsvp0 : (0:ℝ) ≤ Real.sin (v/2) := by linarith only [hsv2.1, hAv2]
    have hsvl2 : Real.sin (v/2) * Real.sin (v/2) ≤ (v/2)*(v/2) :=
      mul_self_le_mul_self hsvp0 hsvp
    have hsx1 : Real.sin (2100000*v) ≤ 2100000*v := by
      linarith only [hsx.2, hv3l, hv4u]
    have hsx0 : (0:ℝ) ≤ Real.sin (2100000*v) := by linarith only [hsx.1, hAx]
    have hsxu2 : Real.sin (2100000*v) * Real.sin (2100000*v) ≤ (2100000*v)*(2100000*v) :=
      mul_self_le_mul_self hsx0 hsx1
    have hCu : 3/4 * Real.cos v + Real.sqrt 3/4 * Real.sin v ≤ 1 := by
      have h1 : Real.cos v ≤ 1 := Real.cos_le_one v
      have h2 : Real.sin v ≤ v := by
        linarith only [hsv.2, hv3l, hv4u]
      have h7 := mul_le_mul_of_nonneg_right
        (show Real.sqrt 3/4 ≤ (174/400:ℝ) from by linarith only [hs3u]) hsv_nn
      have h8 : Real.sqrt 3/4 * Real.sin v ≤ (174/400)*v := by
        linarith only [h7, h2]
      linarith only [h1, h8, hu, h0]
    have h9 : (3/4 * Real.cos v + Real.sqrt 3/4 * Real.sin v) *
        (Real.sin (2100000*v) * Real.sin (2100000*v)) ≤
        1 * ((2100000*v)*(2100000*v)) :=
      mul_le_mul hCu hsxu2 (mul_self_nonneg _) (by norm_num)
    linarith only [hsvl2, h9, hv2u]

set_option maxHeartbeats 1000000 in
/-- The Mercator log-ratio at the counterexample stays inside the 1e-12
threshold, steering RhumbLineDistance into its cosine fallback branch. -/
lemma c7_dpsi (h : ℝ) (hl : (3141592:ℝ)/8000000000000000000 ≤ h)
    (hu : h ≤ (3141593:ℝ)/8000000000000000000) :
    ¬(|Real.log (Real.tan (π/3 - h) / Real.tan (π/3))| > 1e-12) := by
  rw [Real.tan_pi_div_three]
  have h0 : (0:ℝ) < h := lt_of_lt_of_le (by norm_num) hl
  have hh2u : h^2 ≤ 16/10^26 := by
    calc h^2 ≤ ((3141593:ℝ)/8000000000000000000)^2 :=
        pow_le_pow_left h0.le hu 2
      _ ≤ 16/10^26 := by norm_num
  have hh4u : h^4 ≤ 3/10^50 := by
    calc h^4 ≤ ((3141593:ℝ)/8000000000000000000)^4 :=
        pow_le_pow_left h0.le hu 4
      _ ≤ 3/10^50 := by norm_num
  have hh2l : (15:ℝ)/10^26 ≤ h^2 := by
    calc (15:ℝ)/10^26 ≤ ((3141592:ℝ)/8000000000000000000)^2 := by norm_num
      _ ≤ h^2 := pow_le_pow_left (by norm_num) hl 2
  have hct := cos_taylor_bounds (x := h) h0.le (by linarith only [hu])
  have hch : 1 - h^2 ≤ Real.cos h := by linarith only [hct.1, hh2l, hh4u]
  have hch1 : Real.cos h ≤ 1 := Real.cos_le_one h
  have hsh0 : 0 ≤ Real.sin h := by
    apply Real.sin_nonneg_of_nonneg_of_le_pi h0.le
    linarith only [hu, Real.pi_gt_three]
  have hshu : Real.sin h < h := Real.sin_lt h0
  have hs3 : (173/100:ℝ) ≤ Real.sqrt 3 := by
    rw [show (173/100:ℝ) = Real.sqrt ((173/100)^2) from
      (Real.sqrt_sq (by norm_num)).symm]
    exact Real.sqrt_le_sqrt (by norm_num)
  have hs3u : Real.sqrt 3 ≤ 174/100 := by
    rw [show (174/100:ℝ) = Real.sqrt ((174/100)^2) from
      (Real.sqrt_sq (by norm_num)).symm]
    exact Real.sqrt_le_sqrt (by norm_num)
  have h33 : Real.sqrt 3 * Real.sqrt 3 = 3 :=
    Real.mul_self_sqrt (by norm_num)
  have hsin_e : Real.sin (π/3 - h) = Real.sqrt 3/2 * Real.cos h - 1/2 * Real.sin h := by
    rw [Real.sin_sub, Real.sin_pi_div_three, Real.cos_pi_div_three]
  have hcos_e : Real.cos (π/3 - h) = 1/2 * Real.cos h + Real.sqrt 3/2 * Real.sin h := by
    rw [Real.cos_sub, Real.sin_pi_div_three, Real.cos_pi_div_three]
  have hcos_pos : 0 < Real.cos (π/3 - h) := by
    rw [hcos_e]
    nlinarith [hch, hsh0, hh2u, hs3]
  have hsin_pos : 0 < Real.sin (π/3 - h) := by
    rw [hsin_e]
    nlinarith [hch, hshu, hh2u, hs3, hu, h0]
  have hT_pos : 0 < Real.tan (π/3 - h) := by
    rw [Real.tan_eq_sin_div_cos]
    exact div_pos hsin_pos hcos_pos
  have hs3_pos : (0:ℝ) < Real.sqrt 3 := by linarith only [hs3]
  have hr_pos : 0 < Real.tan (π/3 - h) / Real.sqrt 3 := div_pos hT_pos hs3_pos
  have hTle : Real.tan (π/3 - h) ≤ Real.sqrt 3 := by
    rw [Real.tan_eq_sin_div_cos, div_le_iff₀ hcos_pos, hsin_e, hcos_e]
    nlinarith [hsh0, h33, hch, hs3]
  have hupper : Real.log (Real.tan (π/3 - h) / Real.sqrt 3) ≤ 0 :=
    Real.log_nonpos (le_of_lt hr_pos) ((div_le_one hs3_pos).mpr hTle)
  have hTge : Real.sqrt 3 ≤ (1 + 1e-12) * Real.tan (π/3 - h) := by
    rw [Real.tan_eq_sin_div_cos]
    rw [show (1 + 1e-12) * (Real.sin (π/3 - h) / Real.cos (π/3 - h)) =
      ((1 + 1e-12) * Real.sin (π/3 - h)) / Real.cos (π/3 - h) from by ring]
    rw [le_div_iff₀ hcos_pos, hsin_e, hcos_e]
    nlinarith [h33, hch, hch1, hshu, hsh0, hs3, hs3u, hu, h0, hh2u]
  have hinv : Real.sqrt 3 / Real.tan (π/3 - h) ≤ 1 + 1e-12 := by
    rw [div_le_iff₀ hT_pos]
    linarith only [hTge]
  have hloginv : Real.log (Real.sqrt 3 / Real.tan (π/3 - h)) ≤ 1e-12 := by
    have := Real.log_le_sub_one_of_pos (div_pos hs3_pos hT_pos)
    linarith only [this, hinv]
  have hlogneg : Real.log (Real.tan (π/3 - h) / Real.sqrt 3) =
      -Real.log (Real.sqrt 3 / Real.tan (π/3 - h)) := by
    rw [Real.log_div hT_pos.ne' hs3_pos.ne', Real.log_div hs3_pos.ne' hT_pos.ne']
    ring
  have hlower : -(1e-12) ≤ Real.log (Real.tan (π/3 - h) / Real.sqrt 3) := by
    rw [hlogneg]
    linarith only [hloginv]
  rw [not_lt]
  exact abs_le.mpr ⟨hlower, by linarith only [hupper]⟩

set_option maxHeartbeats 1000000 in
/-- C7 counterexample: at lat 30 with a 45e-12-degree latitude drop and a
189e-6-degree longitude step, the rhumb-line fallback underestimates and the
great-circle distance strictly exceeds the rhumb-line distance. -/
theorem C7_counterexample :
    RhumbLineDistance 30 0 (30 - 45/10^12) (189/10^6) <
      GreatCircleDistance 30 0 (30 - 45/10^12) (189/10^6) := by
  have hpil := Real.pi_gt_d6
  have hpiu := Real.pi_lt_d6
  have hvl : (3141592:ℝ)/4000000000000000000 ≤ π/4000000000000 := by linarith
  have hvu : π/4000000000000 ≤ (3141593:ℝ)/4000000000000000000 := by linarith
  have hhl : (3141592:ℝ)/8000000000000000000 ≤ π/8000000000000 := by linarith
  have hhu : π/8000000000000 ≤ (3141593:ℝ)/8000000000000000000 := by linarith
  have h33 : Real.sqrt 3 * Real.sqrt 3 = 3 := Real.mul_self_sqrt (by norm_num)
  have h30 : toRadians 30 = π/6 := by rw [toRadians]; ring
  have hlat2 : toRadians (30 - 45/10^12) = π/6 - π/4000000000000 := by
    rw [toRadians]; ring
  have hdlat : toRadians (30 - 45/10^12 - 30) = -(π/4000000000000) := by
    rw [toRadians]; ring
  have hdlon : toRadians (189/10^6 - 0) = 4200000*(π/4000000000000) := by
    rw [toRadians]; ring
  have hdphi : toRadians (30 - 45/10^12) - toRadians 30 = -(π/4000000000000) := by
    rw [toRadians, toRadians]; ring
  have hphi2 : toRadians (30 - 45/10^12)/2 + π/4 = π/3 - π/8000000000000 := by
    rw [toRadians]; ring
  have hphi1 : toRadians 30/2 + π/4 = π/3 := by rw [toRadians]; ring
  have hwrap : ¬(|4200000*(π/4000000000000)| > π) := by
    rw [abs_of_nonneg (by positivity)]
    rw [not_lt]
    nlinarith [Real.pi_pos]
  obtain ⟨hmain, ha1⟩ := c7_core (π/4000000000000) hvl hvu
  have ha0 : (0:ℝ) ≤ Real.sin (π/4000000000000/2) * Real.sin (π/4000000000000/2) +
      (3/4 * Real.cos (π/4000000000000) +
        Real.sqrt 3/4 * Real.sin (π/4000000000000)) *
        (Real.sin (2100000*(π/4000000000000)) * Real.sin (2100000*(π/4000000000000))) :=
    le_trans (mul_self_nonneg _) hmain.le
  have hrhumb : RhumbLineDistance 30 0 (30 - 45/10^12) (189/10^6) =
      Real.sqrt ((π/4000000000000)^2*13230000000001) * EarthRadiusKm := by
    rw [RhumbLineDistance]
    rw [hdphi, hdlon, hphi2, hphi1]
    rw [if_neg hwrap]
    rw [if_neg (c7_dpsi (π/8000000000000) hhl hhu)]
    rw [h30, Real.cos_pi_div_six]
    rw [show (-(π/4000000000000))*(-(π/4000000000000)) +
        Real.sqrt 3/2*(Real.sqrt 3/2)*(4200000*(π/4000000000000))*(4200000*(π/4000000000000)) =
        (π/4000000000000)^2*13230000000001 from by
      linear_combination (4410000000000*(π/4000000000000)^2) * h33]
  have ha : Real.sin (toRadians (30 - 45/10^12 - 30)/2) *
        Real.sin (toRadians (30 - 45/10^12 - 30)/2) +
      Real.cos (toRadians 30) * Real.cos (toRadians (30 - 45/10^12)) *
        Real.sin (toRadians (189/10^6 - 0)/2) * Real.sin (toRadians (189/10^6 - 0)/2) =
      Real.sin (π/4000000000000/2) * Real.sin (π/4000000000000/2) +
      (3/4 * Real.cos (π/4000000000000) +
        Real.sqrt 3/4 * Real.sin (π/4000000000000)) *
        (Real.sin (2100000*(π/4000000000000)) * Real.sin (2100000*(π/4000000000000))) := by
    rw [hdlat, h30, hlat2, hdlon]
    rw [show -(π/4000000000000)/2 = -(π/4000000000000/2) from by ring, Real.sin_neg]
    rw [show 4200000*(π/4000000000000)/2 = 2100000*(π/4000000000000) from by ring]
    rw [Real.cos_sub, Real.cos_pi_div_six, Real.sin_pi_div_six]
    linear_combination (Real.cos (π/4000000000000) *
      Real.sin (2100000*(π/4000000000000)) * Real.sin (2100000*(π/4000000000000)) / 4) * h33
  have hgc : GreatCircleDistance 30 0 (30 - 45/10^12) (189/10^6) =
      EarthRadiusKm * (2 * Real.arcsin (Real.sqrt
        (Real.sin (π/4000000000000/2) * Real.sin (π/4000000000000/2) +
        (3/4 * Real.cos (π/4000000000000) +
          Real.sqrt 3/4 * Real.sin (π/4000000000000)) *
          (Real.sin (2100000*(π/4000000000000)) *
            Real.sin (2100000*(π/4000000000000)))))) := by
    rw [GreatCircleDistance]
    rw [ha]
    rw [atan2_sqrt_eq_arcsin ha0 ha1]
  have hdun : Real.sqrt ((π/4000000000000)^2*13230000000001) ≤ 3/1000000 := by
    rw [show (3:ℝ)/1000000 = Real.sqrt ((3/1000000)^2) from
      (Real.sqrt_sq (by norm_num)).symm]
    apply Real.sqrt_le_sqrt
    nlinarith [hvu, hvl]
  have hdnn' : 0 ≤ Real.sqrt ((π/4000000000000)^2*13230000000001) := Real.sqrt_nonneg _
  have hsalt : Real.sin (Real.sqrt ((π/4000000000000)^2*13230000000001)/2) <
      Real.sqrt (Real.sin (π/4000000000000/2) * Real.sin (π/4000000000000/2) +
      (3/4 * Real.cos (π/4000000000000) +
        Real.sqrt 3/4 * Real.sin (π/4000000000000)) *
        (Real.sin (2100000*(π/4000000000000)) * Real.sin (2100000*(π/4000000000000)))) := by
    have hsdnn : 0 ≤ Real.sin (Real.sqrt ((π/4000000000000)^2*13230000000001)/2) := by
      apply Real.sin_nonneg_of_nonneg_of_le_pi (by linarith)
      linarith [Real.pi_gt_three]
    rw [show Real.sin (Real.sqrt ((π/4000000000000)^2*13230000000001)/2) =
      Real.sqrt ((Real.sin (Real.sqrt ((π/4000000000000)^2*13230000000001)/2))^2) from
      (Real.sqrt_sq hsdnn).symm]
    apply Real.sqrt_lt_sqrt (sq_nonneg _)
    rw [pow_two]
    exact hmain
  have harc : Real.sqrt ((π/4000000000000)^2*13230000000001)/2 <
      Real.arcsin (Real.sqrt (Real.sin (π/4000000000000/2) * Real.sin (π/4000000000000/2) +
      (3/4 * Real.cos (π/4000000000000) +
        Real.sqrt 3/4 * Real.sin (π/4000000000000)) *
        (Real.sin (2100000*(π/4000000000000)) * Real.sin (2100000*(π/4000000000000))))) := by
    have heq : Real.arcsin (Real.sin
        (Real.sqrt ((π/4000000000000)^2*13230000000001)/2)) =
        Real.sqrt ((π/4000000000000)^2*13230000000001)/2 := by
      apply Real.arcsin_sin
      · linarith [Real.pi_gt_three]
      · linarith [Real.pi_gt_three]
    rw [← heq]
    apply Real.strictMonoOn_arcsin ⟨Real.neg_one_le_sin _, Real.sin_le_one _⟩
      ⟨le_trans (by norm_num) (Real.sqrt_nonneg _), Real.sqrt_le_one.mpr ha1⟩ hsalt
  rw [hrhumb, hgc, EarthRadiusKm]
  nlinarith [harc]

/-- atan2 of zero over a positive abscissa is zero. -/
lemma atan2_zero_pos {x : ℝ} (hx : 0 < x) : atan2 0 x = 0 := by
  have h1 := atan2_smul hx 0 1
  rw [mul_zero, mul_one] at h1
  have h2 : atan2 (Real.sin 0) (Real.cos 0) = 0 :=
    atan2_cos_sin (by linarith [Real.pi_pos]) Real.pi_pos.le
  rw [Real.sin_zero, Real.cos_zero] at h2
  rw [h1, h2]

/-- The sine of an absolute value within one period. -/
lemma sin_abs_eq {x : ℝ} (h : |x| ≤ π) : Real.sin |x| = |Real.sin x| := by
  rcases le_or_lt 0 x with hx | hx
  · rw [abs_of_nonneg hx,
      abs_of_nonneg (Real.sin_nonneg_of_nonneg_of_le_pi hx (le_trans (le_abs_self x) h))]
  · have hx' : -π ≤ x := (abs_le.mp h).1
    rw [abs_of_neg hx, Real.sin_neg,
      abs_of_nonpos (Real.sin_nonpos_of_nonnpos_of_neg_pi_le hx.le hx')]

/-- Chord bound: scaling the angle beats scaling the sine, by concavity. -/
lemma arcsin_chord {c θ : ℝ} (hc0 : 0 ≤ c) (hc1 : c ≤ 1) (hθ0 : 0 ≤ θ)
    (hθ1 : θ ≤ π/2) : Real.arcsin (c * Real.sin θ) ≤ c * θ := by
  have hπ := Real.pi_pos
  have hchord : c * Real.sin θ ≤ Real.sin (c*θ) := by
    have hconc := strictConcaveOn_sin_Icc.concaveOn
    have hcc2 := hconc.2
    have h := hcc2 (x := θ) (y := 0) (a := c) (b := 1 - c) ⟨hθ0, by linarith⟩
      ⟨le_refl 0, hπ.le⟩ hc0 (by linarith) (by ring)
    simpa using h
  calc Real.arcsin (c * Real.sin θ) ≤ Real.arcsin (Real.sin (c*θ)) :=
        Real.monotone_arcsin hchord
    _ = c*θ := Real.arcsin_sin (by nlinarith [mul_nonneg hc0 hθ0]) (by nlinarith)

/-- The rhumb angle dominates the latitude gap regardless of branch values. -/
lemma sqrt_term_ge (x y z : ℝ) :
    |x| * EarthRadiusKm ≤ Real.sqrt (x*x + y*y*z*z) * EarthRadiusKm := by
  apply mul_le_mul_of_nonneg_right _
    (show (0:ℝ) ≤ EarthRadiusKm from by rw [EarthRadiusKm]; norm_num)
  rw [show |x| = Real.sqrt (x*x) from (Real.sqrt_mul_self_eq_abs x).symm]
  apply Real.sqrt_le_sqrt
  nlinarith [sq_nonneg (y*z)]

/-- Degrees within half a turn stay within π radians. -/
lemma toRadians_abs_le_pi {x : ℝ} (h : |x| ≤ 180) : |toRadians x| ≤ π := by
  rw [toRadians, abs_div, abs_mul, abs_of_pos Real.pi_pos,
    show |(180:ℝ)| = 180 from by norm_num,
    div_le_iff₀ (by norm_num : (0:ℝ) < 180)]
  nlinarith [Real.pi_pos, abs_nonneg x]

/-- C7 (amended): the rhumb-line distance dominates the great-circle
distance when both endpoints share a latitude and the longitudes differ by
at most 180 degrees, and whenever the endpoint latitude cosines have
opposite signs (with latitudes at most 180 degrees apart); without such
restrictions the claim fails near the E-W fallback threshold (see the
counterexample). -/
theorem C7_greatCircle_le_rhumb_amended :
    (∀ (lat lon1 lon2 : ℝ), |lon2 - lon1| ≤ 180 →
      GreatCircleDistance lat lon1 lat lon2 ≤ RhumbLineDistance lat lon1 lat lon2) ∧
    (∀ (lat1 lon1 lat2 lon2 : ℝ),
      Real.cos (toRadians lat1) * Real.cos (toRadians lat2) ≤ 0 →
      |lat2 - lat1| ≤ 180 →
      GreatCircleDistance lat1 lon1 lat2 lon2 ≤ RhumbLineDistance lat1 lon1 lat2 lon2) := by
  have hR : (0:ℝ) ≤ EarthRadiusKm := by rw [EarthRadiusKm]; norm_num
  constructor
  · intro lat lon1 lon2 hlon
    have hL : |toRadians (lon2-lon1)| ≤ π := toRadians_abs_le_pi hlon
    have hC1 : |Real.cos (toRadians lat)| ≤ 1 := Real.abs_cos_le_one _
    have h0r : toRadians 0 = 0 := by rw [toRadians]; ring
    rw [GreatCircleDistance, RhumbLineDistance, sub_self lat, sub_self (toRadians lat),
      h0r, show (0:ℝ)/2 = 0 from by norm_num, Real.sin_zero]
    have hdpsi : Real.log (Real.tan (toRadians lat/2 + π/4) /
        Real.tan (toRadians lat/2 + π/4)) = 0 := by
      rcases eq_or_ne (Real.tan (toRadians lat/2 + π/4)) 0 with h | h
      · rw [h, zero_div, Real.log_zero]
      · rw [div_self h, Real.log_one]
    rw [hdpsi, if_neg (show ¬(|(0:ℝ)| > 1e-12) from by norm_num)]
    rw [if_neg (not_lt.mpr hL)]
    have ha_id : (0:ℝ)*0 + Real.cos (toRadians lat) * Real.cos (toRadians lat) *
        Real.sin (toRadians (lon2-lon1)/2) * Real.sin (toRadians (lon2-lon1)/2) =
        (|Real.cos (toRadians lat)| * |Real.sin (toRadians (lon2-lon1)/2)|)^2 := by
      rw [← abs_mul, sq_abs]
      ring
    have habsin : |Real.sin (toRadians (lon2-lon1)/2)| ≤ 1 :=
      abs_le.mpr ⟨Real.neg_one_le_sin _, Real.sin_le_one _⟩
    have ha0 : (0:ℝ) ≤ 0*0 + Real.cos (toRadians lat) * Real.cos (toRadians lat) *
        Real.sin (toRadians (lon2-lon1)/2) * Real.sin (toRadians (lon2-lon1)/2) := by
      rw [ha_id]
      positivity
    have ha1 : (0:ℝ)*0 + Real.cos (toRadians lat) * Real.cos (toRadians lat) *
        Real.sin (toRadians (lon2-lon1)/2) * Real.sin (toRadians (lon2-lon1)/2) ≤ 1 := by
      rw [ha_id]
      have hm : |Real.cos (toRadians lat)| * |Real.sin (toRadians (lon2-lon1)/2)| ≤ 1 := by
        nlinarith [hC1, habsin, abs_nonneg (Real.cos (toRadians lat)),
          abs_nonneg (Real.sin (toRadians (lon2-lon1)/2))]
      nlinarith [hm, mul_nonneg (abs_nonneg (Real.cos (toRadians lat)))
        (abs_nonneg (Real.sin (toRadians (lon2-lon1)/2)))]
    rw [atan2_sqrt_eq_arcsin ha0 ha1, ha_id, Real.sqrt_sq (by positivity)]
    rw [show (0:ℝ)*0 + Real.cos (toRadians lat) * Real.cos (toRadians lat) *
        toRadians (lon2-lon1) * toRadians (lon2-lon1) =
        (Real.cos (toRadians lat) * toRadians (lon2-lon1)) *
          (Real.cos (toRadians lat) * toRadians (lon2-lon1)) from by ring]
    rw [Real.sqrt_mul_self_eq_abs, abs_mul]
    have hs_eq : |Real.sin (toRadians (lon2-lon1)/2)| =
        Real.sin (|toRadians (lon2-lon1)|/2) := by
      rw [show |toRadians (lon2-lon1)|/2 = |toRadians (lon2-lon1)/2| from by
        rw [abs_div]; norm_num]
      exact (sin_abs_eq (by
        rw [abs_div, show |(2:ℝ)| = 2 from by norm_num]
        linarith [Real.pi_pos, hL])).symm
    have hkey : Real.arcsin (|Real.cos (toRadians lat)| *
        |Real.sin (toRadians (lon2-lon1)/2)|) ≤
        |Real.cos (toRadians lat)| * (|toRadians (lon2-lon1)|/2) := by
      rw [hs_eq]
      exact arcsin_chord (abs_nonneg _) hC1 (by positivity) (by linarith)
    nlinarith [mul_le_mul_of_nonneg_left hkey hR]
  · intro lat1 lon1 lat2 lon2 hcc hlat
    have hlin : toRadians (lat2 - lat1) = toRadians lat2 - toRadians lat1 := by
      rw [toRadians, toRadians, toRadians]
      ring
    have hXle : |toRadians lat2 - toRadians lat1| ≤ π := by
      rw [← hlin]
      exact toRadians_abs_le_pi hlat
    have hgc_le : GreatCircleDistance lat1 lon1 lat2 lon2 ≤
        |toRadians lat2 - toRadians lat1| * EarthRadiusKm := by
      rw [GreatCircleDistance, hlin]
      obtain ⟨hav0, hav1⟩ :=
        hav_mem_Icc (toRadians lat1) (toRadians lat2) (toRadians (lon2 - lon1))
      rcases le_or_lt 0 (Real.sin ((toRadians lat2 - toRadians lat1)/2) *
          Real.sin ((toRadians lat2 - toRadians lat1)/2) +
          Real.cos (toRadians lat1) * Real.cos (toRadians lat2) *
            Real.sin (toRadians (lon2-lon1)/2) *
            Real.sin (toRadians (lon2-lon1)/2)) with ha | ha
      · rw [atan2_sqrt_eq_arcsin ha hav1]
        have h1 : Real.sqrt (Real.sin ((toRadians lat2 - toRadians lat1)/2) *
            Real.sin ((toRadians lat2 - toRadians lat1)/2) +
            Real.cos (toRadians lat1) * Real.cos (toRadians lat2) *
              Real.sin (toRadians (lon2-lon1)/2) *
              Real.sin (toRadians (lon2-lon1)/2)) ≤
            |Real.sin ((toRadians lat2 - toRadians lat1)/2)| := by
          calc Real.sqrt _ ≤ Real.sqrt (Real.sin ((toRadians lat2 - toRadians lat1)/2) *
              Real.sin ((toRadians lat2 - toRadians lat1)/2)) := by
                apply Real.sqrt_le_sqrt
                nlinarith [hcc, mul_self_nonneg (Real.sin (toRadians (lon2-lon1)/2))]
            _ = |Real.sin ((toRadians lat2 - toRadians lat1)/2)| :=
                Real.sqrt_mul_self_eq_abs _
        have hhalf : |(toRadians lat2 - toRadians lat1)/2| ≤ π/2 := by
          rw [abs_div, show |(2:ℝ)| = 2 from by norm_num]
          linarith
        have h2 : Real.arcsin (Real.sqrt (Real.sin ((toRadians lat2 - toRadians lat1)/2) *
            Real.sin ((toRadians lat2 - toRadians lat1)/2) +
            Real.cos (toRadians lat1) * Real.cos (toRadians lat2) *
              Real.sin (toRadians (lon2-lon1)/2) *
              Real.sin (toRadians (lon2-lon1)/2))) ≤
            |toRadians lat2 - toRadians lat1|/2 := by
          have hs_eq : |Real.sin ((toRadians lat2 - toRadians lat1)/2)| =
              Real.sin (|(toRadians lat2 - toRadians lat1)/2|) :=
            (sin_abs_eq (by linarith [Real.pi_pos, hhalf])).symm
          calc Real.arcsin _ ≤ Real.arcsin
                (|Real.sin ((toRadians lat2 - toRadians lat1)/2)|) :=
              Real.monotone_arcsin h1
            _ = |(toRadians lat2 - toRadians lat1)/2| := by
                rw [hs_eq]
                exact Real.arcsin_sin
                  (le_trans (by linarith [Real.pi_pos] : -(π/2) ≤ (0:ℝ)) (abs_nonneg _))
                  hhalf
            _ = |toRadians lat2 - toRadians lat1|/2 := by
                rw [abs_div, show |(2:ℝ)| = 2 from by norm_num]
        nlinarith [mul_le_mul_of_nonneg_left h2 hR]
      · rw [Real.sqrt_eq_zero_of_nonpos ha.le]
        rw [atan2_zero_pos (Real.sqrt_pos.mpr (by linarith))]
        rw [mul_zero, mul_zero]
        positivity
    calc GreatCircleDistance lat1 lon1 lat2 lon2 ≤
        |toRadians lat2 - toRadians lat1| * EarthRadiusKm := hgc_le
      _ ≤ RhumbLineDistance lat1 lon1 lat2 lon2 := by
          rw [RhumbLineDistance]
          exact sqrt_term_ge _ _ _

/-- Witness for the amended C7: equal-latitude endpoints at lat 10 spanning
90 degrees of longitude, and a pole-straddling pair from lat 0 to lat 100. -/
theorem C7_witness :
    GreatCircleDistance 10 0 10 90 ≤ RhumbLineDistance 10 0 10 90 ∧
    GreatCircleDistance 0 0 100 50 ≤ RhumbLineDistance 0 0 100 50 := by
  constructor
  · exact C7_greatCircle_le_rhumb_amended.1 10 0 90 (by norm_num)
  · apply C7_greatCircle_le_rhumb_amended.2 0 0 100 50 ?_ (by norm_num)
    have h0 : toRadians 0 = 0 := by rw [toRadians]; ring
    have h100 : toRadians 100 = 5*π/9 := by rw [toRadians]; ring
    rw [h0, h100, Real.cos_zero, one_mul]
    apply Real.cos_nonpos_of_pi_div_two_le_of_le
    · nlinarith [Real.pi_pos]
    · nlinarith [Real.pi_pos]
